import Mathlib

/-! Finder, status extractor and waiter pattern of the AWS provider resources.

Shallow embedding of

* `aws/internal/service/globalaccelerator/finder/finder.go`
  (`AcceleratorByARN`, `AcceleratorAttributesByARN`, `EndpointGroupByARN`),
* `internal/service/memorydb/status.go` (the six `status*` refresh functions),
* `internal/service/memorydb/snapshot.go` (`resourceSnapshotCreate`,
  `resourceSnapshotRead`, `resourceSnapshotDelete`, `flattenClusterConfiguration`
  and the validators of "name" and "name_prefix" in `ResourceSnapshot`),
* `aws/resource_aws_globalaccelerator_accelerator_test.go`
  (`testAccCheckGlobalAcceleratorAcceleratorDestroy`).

Go pointers are `Option`s (`none` is `nil`), a Go `error` is `Option GoError`
(`none` is the nil error), service calls are explicit oracles whose
invocations are recorded in a call log, and a nil-pointer dereference is the
explicit outcome `GoResult.panicked`.
-/

namespace TerraformAws

/-! ## Go runtime values -/

/-- The `interface{}` stored in `NotFoundError.LastRequest`: one of the three
describe inputs built by the finders, each holding its `*string` ARN field. -/
inductive Request where
  | describeAcceleratorInput (acceleratorArn : Option String)
  | describeAcceleratorAttributesInput (acceleratorArn : Option String)
  | describeEndpointGroupInput (endpointGroupArn : Option String)
  deriving DecidableEq, Repr

/-- Go `error` values.  `awsErr` is an `awserr.Error` with its code,
`notFoundError` is `*resource.NotFoundError` with its `LastError`,
`LastRequest` and `Message` fields, `errorString` is any other leaf error and
`wrapError` is an error wrapping another one (`fmt.Errorf` with `%w`). -/
inductive GoError where
  | awsErr (code : String) (message : String)
  | errorString (message : String)
  | wrapError (message : String) (err : GoError)
  | notFoundError (lastError : Option GoError) (lastRequest : Option Request)
      (message : String)
  deriving Repr

/-- Outcome of a Go function body: it returns a value or panics. -/
inductive GoResult (α : Type) where
  | returned (value : α)
  | panicked (reason : String)
  deriving DecidableEq, Repr

/-- Helper `aws.String`: address of a string value. -/
def awsString (s : String) : Option String := some s

/-- Helper `aws.StringValue`: the pointed-to string, or `""` for nil. -/
def awsStringValue (p : Option String) : String :=
  match p with
  | some s => s
  | none => ""

/-- Helper `aws.Int64Value`: the pointed-to integer, or `0` for nil. -/
def awsInt64Value (p : Option Int) : Int :=
  match p with
  | some n => n
  | none => 0

/-- The first `awserr.Error` code found along the `Unwrap` chain of an error
(`errors.As(err, &awsErr)` followed by `awsErr.Code()`). -/
def GoError.awsCode : GoError → Option String
  | .awsErr code _ => some code
  | .errorString _ => none
  | .wrapError _ err => err.awsCode
  | .notFoundError (some err) _ _ => err.awsCode
  | .notFoundError none _ _ => none

/-- Library `tfawserr.ErrCodeEquals(err, code)`: false for the nil error, else
whether the error chain holds an `awserr.Error` with exactly that code. -/
def errCodeEquals (err : Option GoError) (code : String) : Bool :=
  match err with
  | none => false
  | some e =>
    match e.awsCode with
    | some c => c == code
    | none => false

/-- Whether the `Unwrap` chain of an error holds a `*resource.NotFoundError`
(`errors.As(err, &e)` with `e` a `*resource.NotFoundError`). -/
def GoError.isNotFound : GoError → Bool
  | .awsErr _ _ => false
  | .errorString _ => false
  | .wrapError _ err => err.isNotFound
  | .notFoundError _ _ _ => true

/-- Modelled from the spec: `tfresource.NotFound` (package `internal/tfresource`,
not among the sources) recognises the dedicated NotFound error kind; the nil
error is not a NotFound error. -/
def tfresourceNotFound (err : Option GoError) : Bool :=
  match err with
  | none => false
  | some e => e.isNotFound

/-! ## Global Accelerator finders (`finder.go`) -/

/-- SDK constant `globalaccelerator.ErrCodeAcceleratorNotFoundException`. -/
def ErrCodeAcceleratorNotFoundException : String := "AcceleratorNotFoundException"

/-- SDK type `globalaccelerator.Accelerator` (the fields the provider reads). -/
structure Accelerator where
  AcceleratorArn : Option String
  Name : Option String
  Status : Option String
  Enabled : Option Bool
  deriving DecidableEq, Repr

/-- SDK type `globalaccelerator.AcceleratorAttributes`. -/
structure AcceleratorAttributes where
  FlowLogsEnabled : Option Bool
  FlowLogsS3Bucket : Option String
  FlowLogsS3Prefix : Option String
  deriving DecidableEq, Repr

/-- SDK type `globalaccelerator.EndpointGroup` (the fields the provider reads). -/
structure EndpointGroup where
  EndpointGroupArn : Option String
  EndpointGroupRegion : Option String
  deriving DecidableEq, Repr

/-- SDK type `globalaccelerator.DescribeAcceleratorOutput`. -/
structure DescribeAcceleratorOutput where
  Accelerator : Option Accelerator
  deriving DecidableEq, Repr

/-- SDK type `globalaccelerator.DescribeAcceleratorAttributesOutput`. -/
structure DescribeAcceleratorAttributesOutput where
  AcceleratorAttributes : Option AcceleratorAttributes
  deriving DecidableEq, Repr

/-- SDK type `globalaccelerator.DescribeEndpointGroupOutput`. -/
structure DescribeEndpointGroupOutput where
  EndpointGroup : Option EndpointGroup
  deriving DecidableEq, Repr

/-- The service client `*globalaccelerator.GlobalAccelerator`.  `calls` is the
log of describe requests issued so far; each describe operation answers with
an arbitrary `(output, err)` pair that may depend on that history and on the
request. -/
structure GlobalAccelerator where
  calls : List Request
  describeAccelerator :
    List Request → Request → Option DescribeAcceleratorOutput × Option GoError
  describeAcceleratorAttributes :
    List Request → Request → Option DescribeAcceleratorAttributesOutput × Option GoError
  describeEndpointGroup :
    List Request → Request → Option DescribeEndpointGroupOutput × Option GoError

/-- The client after one more request has gone out. -/
def GlobalAccelerator.record (conn : GlobalAccelerator) (input : Request) :
    GlobalAccelerator :=
  { conn with calls := conn.calls ++ [input] }

/-- Method `conn.DescribeAccelerator(input)`: one network call. -/
def GlobalAccelerator.DescribeAccelerator (conn : GlobalAccelerator) (input : Request) :
    (Option DescribeAcceleratorOutput × Option GoError) × GlobalAccelerator :=
  (conn.describeAccelerator conn.calls input, conn.record input)

/-- Method `conn.DescribeAcceleratorAttributes(input)`: one network call. -/
def GlobalAccelerator.DescribeAcceleratorAttributes (conn : GlobalAccelerator)
    (input : Request) :
    (Option DescribeAcceleratorAttributesOutput × Option GoError) × GlobalAccelerator :=
  (conn.describeAcceleratorAttributes conn.calls input, conn.record input)

/-- Method `conn.DescribeEndpointGroup(input)`: one network call. -/
def GlobalAccelerator.DescribeEndpointGroup (conn : GlobalAccelerator) (input : Request) :
    (Option DescribeEndpointGroupOutput × Option GoError) × GlobalAccelerator :=
  (conn.describeEndpointGroup conn.calls input, conn.record input)

/-- Function `finder.AcceleratorByARN`: the returned `(snapshot, error)` pair and
the client afterwards. -/
def AcceleratorByARN (conn : GlobalAccelerator) (arn : String) :
    (Option Accelerator × Option GoError) × GlobalAccelerator :=
  let input := Request.describeAcceleratorInput (awsString arn)
  let ((output, err), conn1) := conn.DescribeAccelerator input
  if errCodeEquals err ErrCodeAcceleratorNotFoundException then
    ((none, some (GoError.notFoundError err (some input) "")), conn1)
  else if err.isSome then
    ((none, err), conn1)
  else
    match output with
    | none => ((none, some (GoError.notFoundError none (some input) "Empty result")), conn1)
    | some out =>
      match out.Accelerator with
      | none =>
        ((none, some (GoError.notFoundError none (some input) "Empty result")), conn1)
      | some accelerator => ((some accelerator, none), conn1)

/-- Function `finder.AcceleratorAttributesByARN`. -/
def AcceleratorAttributesByARN (conn : GlobalAccelerator) (arn : String) :
    (Option AcceleratorAttributes × Option GoError) × GlobalAccelerator :=
  let input := Request.describeAcceleratorAttributesInput (awsString arn)
  let ((output, err), conn1) := conn.DescribeAcceleratorAttributes input
  if errCodeEquals err ErrCodeAcceleratorNotFoundException then
    ((none, some (GoError.notFoundError err (some input) "")), conn1)
  else if err.isSome then
    ((none, err), conn1)
  else
    match output with
    | none => ((none, some (GoError.notFoundError none (some input) "Empty result")), conn1)
    | some out =>
      match out.AcceleratorAttributes with
      | none =>
        ((none, some (GoError.notFoundError none (some input) "Empty result")), conn1)
      | some attributes => ((some attributes, none), conn1)

/-- Function `finder.EndpointGroupByARN`.  There is no guard on `output`, so
reading `output.EndpointGroup` through a nil `output` panics. -/
def EndpointGroupByARN (conn : GlobalAccelerator) (arn : String) :
    GoResult (Option EndpointGroup × Option GoError) × GlobalAccelerator :=
  let input := Request.describeEndpointGroupInput (awsString arn)
  let ((output, err), conn1) := conn.DescribeEndpointGroup input
  if err.isSome then
    (GoResult.returned (none, err), conn1)
  else
    match output with
    | none => (GoResult.panicked "nil pointer dereference", conn1)
    | some out => (GoResult.returned (out.EndpointGroup, none), conn1)

/-! ## MemoryDB status extractors (`status.go`) -/

def clusterSecurityGroupStatusActive : String := "active"
def clusterSecurityGroupStatusModifying : String := "modifying"
def snapshotStatusCreating : String := "creating"
def snapshotStatusAvailable : String := "available"
def snapshotStatusDeleting : String := "deleting"

/-- SDK type `memorydb.ACL` (the fields the provider reads). -/
structure ACL where
  ARN : Option String
  Name : Option String
  Status : Option String
  deriving DecidableEq, Repr

/-- SDK type `memorydb.SecurityGroupMembership`. -/
structure SecurityGroupMembership where
  SecurityGroupId : Option String
  Status : Option String
  deriving DecidableEq, Repr

/-- SDK type `memorydb.Cluster` (the fields the provider reads);
`SecurityGroups` is a slice of pointers. -/
structure Cluster where
  ARN : Option String
  Name : Option String
  ParameterGroupStatus : Option String
  SecurityGroups : List (Option SecurityGroupMembership)
  Status : Option String
  deriving DecidableEq, Repr

/-- SDK type `memorydb.ClusterConfiguration`. -/
structure ClusterConfiguration where
  Description : Option String
  EngineVersion : Option String
  MaintenanceWindow : Option String
  Name : Option String
  NodeType : Option String
  NumShards : Option Int
  ParameterGroupName : Option String
  Port : Option Int
  SnapshotRetentionLimit : Option Int
  SnapshotWindow : Option String
  SubnetGroupName : Option String
  TopicArn : Option String
  VpcId : Option String
  deriving DecidableEq, Repr

/-- SDK type `memorydb.Snapshot`. -/
structure Snapshot where
  ARN : Option String
  ClusterConfiguration : Option ClusterConfiguration
  KmsKeyId : Option String
  Name : Option String
  Source : Option String
  Status : Option String
  deriving DecidableEq, Repr

/-- SDK type `memorydb.User` (the fields the provider reads). -/
structure User where
  ARN : Option String
  Name : Option String
  Status : Option String
  deriving DecidableEq, Repr

/-- What a finder `Find…ByName(ctx, conn, name)` hands back: a snapshot pointer
and an error.  The finders of package `memorydb` are not among the sources, so
the status extractors take the finder as an argument. -/
abbrev FinderOutcome (σ : Type) : Type := Option σ × Option GoError

/-- What a `resource.StateRefreshFunc` returns: `(interface{}, string, error)`. -/
abbrev RefreshResult (σ : Type) : Type := Option σ × String × Option GoError

/-- Function `statusACL`: the body of the returned refresh function, for the
finder `FindACLByName(ctx, conn, ·)` current at the time of the call. -/
def statusACL (FindACLByName : String → FinderOutcome ACL) (aclName : String) :
    GoResult (RefreshResult ACL) :=
  let (acl, err) := FindACLByName aclName
  if tfresourceNotFound err then
    GoResult.returned (none, "", none)
  else if err.isSome then
    GoResult.returned (none, "", err)
  else
    match acl with
    | none => GoResult.panicked "nil pointer dereference"
    | some a => GoResult.returned (some a, awsStringValue a.Status, none)

/-- Function `statusCluster`. -/
def statusCluster (FindClusterByName : String → FinderOutcome Cluster)
    (clusterName : String) : GoResult (RefreshResult Cluster) :=
  let (cluster, err) := FindClusterByName clusterName
  if tfresourceNotFound err then
    GoResult.returned (none, "", none)
  else if err.isSome then
    GoResult.returned (none, "", err)
  else
    match cluster with
    | none => GoResult.panicked "nil pointer dereference"
    | some c => GoResult.returned (some c, awsStringValue c.Status, none)

/-- Function `statusClusterParameterGroup`. -/
def statusClusterParameterGroup (FindClusterByName : String → FinderOutcome Cluster)
    (clusterName : String) : GoResult (RefreshResult Cluster) :=
  let (cluster, err) := FindClusterByName clusterName
  if tfresourceNotFound err then
    GoResult.returned (none, "", none)
  else if err.isSome then
    GoResult.returned (none, "", err)
  else
    match cluster with
    | none => GoResult.panicked "nil pointer dereference"
    | some c => GoResult.returned (some c, awsStringValue c.ParameterGroupStatus, none)

/-- The `for _, sg := range cluster.SecurityGroups` loop of
`statusClusterSecurityGroups`: the first group whose status is not "active"
ends it with "modifying"; reading `sg.Status` through a nil `sg` panics. -/
def securityGroupsLoop : List (Option SecurityGroupMembership) → GoResult String
  | [] => GoResult.returned clusterSecurityGroupStatusActive
  | none :: _ => GoResult.panicked "nil pointer dereference"
  | some sg :: rest =>
    if awsStringValue sg.Status != clusterSecurityGroupStatusActive then
      GoResult.returned clusterSecurityGroupStatusModifying
    else
      securityGroupsLoop rest

/-- Function `statusClusterSecurityGroups`. -/
def statusClusterSecurityGroups (FindClusterByName : String → FinderOutcome Cluster)
    (clusterName : String) : GoResult (RefreshResult Cluster) :=
  let (cluster, err) := FindClusterByName clusterName
  if tfresourceNotFound err then
    GoResult.returned (none, "", none)
  else if err.isSome then
    GoResult.returned (none, "", err)
  else
    match cluster with
    | none => GoResult.panicked "nil pointer dereference"
    | some c =>
      match securityGroupsLoop c.SecurityGroups with
      | GoResult.panicked reason => GoResult.panicked reason
      | GoResult.returned signal => GoResult.returned (some c, signal, none)

/-- Function `statusSnapshot`. -/
def statusSnapshot (FindSnapshotByName : String → FinderOutcome Snapshot)
    (snapshotName : String) : GoResult (RefreshResult Snapshot) :=
  let (snapshot, err) := FindSnapshotByName snapshotName
  if tfresourceNotFound err then
    GoResult.returned (none, "", none)
  else if err.isSome then
    GoResult.returned (none, "", err)
  else
    match snapshot with
    | none => GoResult.panicked "nil pointer dereference"
    | some s => GoResult.returned (some s, awsStringValue s.Status, none)

/-- Function `statusUser`. -/
def statusUser (FindUserByName : String → FinderOutcome User) (userName : String) :
    GoResult (RefreshResult User) :=
  let (user, err) := FindUserByName userName
  if tfresourceNotFound err then
    GoResult.returned (none, "", none)
  else if err.isSome then
    GoResult.returned (none, "", err)
  else
    match user with
    | none => GoResult.panicked "nil pointer dereference"
    | some u => GoResult.returned (some u, awsStringValue u.Status, none)

/-! ## The waiter -/

/-- Modelled from the spec: the Poll Outcome of one tick (section 3), one of
Found-with-signal, NotFound, TransientError, FatalError. -/
inductive PollOutcome (σ : Type) where
  | found (snapshot : σ) (signal : String)
  | notFound
  | transientError (err : GoError)
  | fatalError (err : GoError)

/-- Modelled from the spec: how a resource type registers NotFound with the
waiter (section 4.3 step 2): as a pending state, as the target, or neither. -/
inductive NotFoundPolicy where
  | pending
  | target
  | unexpected
  deriving DecidableEq, Repr

/-- Modelled from the spec: the Wait Configuration (sections 3 and 4.3): target
signals, pending signals, permanent-failure signals, the NotFound registration,
and the timing parameters.  Time is not simulated: the tick sequence handed to
the waiter is the sequence of ticks that fit before the deadline. -/
structure WaitConfiguration where
  target : List String
  pending : List String
  failure : List String
  notFound : NotFoundPolicy
  timeout : Nat
  pollInterval : Nat
  minTimeout : Nat
  deriving DecidableEq, Repr

/-- Modelled from the spec: the errors a waiter ends with (section 7). -/
inductive WaitError (σ : Type) where
  | unexpectedStatus (snapshot : σ) (signal : String)
  | vanished
  | propagated (err : GoError)

/-- Modelled from the spec: what the waiter does with one Poll Outcome. -/
inductive TickDecision (σ : Type) where
  | keepPolling
  | succeed (snapshot : Option σ)
  | fail (err : WaitError σ)

/-- Modelled from the spec: where a waiter invocation ends (section 4.3), with
the number of ticks it performed: Target with the final snapshot, Failure, or
TimedOut with the last observed outcome. -/
inductive WaitResult (σ : Type) where
  | success (ticks : Nat) (snapshot : Option σ)
  | failure (ticks : Nat) (err : WaitError σ)
  | timedOut (ticks : Nat) (last : Option (PollOutcome σ))

/-- Modelled from the spec: steps 2 to 5 and 7 of the waiter algorithm (section
4.3), taken in the order they are listed: NotFound follows its registration, a
signal in the target set succeeds, else a signal in the failure set fails,
else any other signal and any transient error keep the waiter pending; a
fatal error propagates. -/
def waiterDecide {σ : Type} (cfg : WaitConfiguration) : PollOutcome σ → TickDecision σ
  | PollOutcome.notFound =>
    match cfg.notFound with
    | NotFoundPolicy.pending => TickDecision.keepPolling
    | NotFoundPolicy.target => TickDecision.succeed none
    | NotFoundPolicy.unexpected => TickDecision.fail WaitError.vanished
  | PollOutcome.found snapshot signal =>
    if signal ∈ cfg.target then TickDecision.succeed (some snapshot)
    else if signal ∈ cfg.failure then
      TickDecision.fail (WaitError.unexpectedStatus snapshot signal)
    else TickDecision.keepPolling
  | PollOutcome.transientError _ => TickDecision.keepPolling
  | PollOutcome.fatalError err => TickDecision.fail (WaitError.propagated err)

/-- Modelled from the spec: the tick loop of the waiter (section 4.3).  `done`
counts the ticks already performed and `last` is the last observed outcome;
ticks are strictly sequential, the first terminal decision ends the loop and
the remaining ticks are never performed; running out of ticks is the deadline
(step 6). -/
def waiterLoop {σ : Type} (cfg : WaitConfiguration) :
    List (PollOutcome σ) → Nat → Option (PollOutcome σ) → WaitResult σ
  | [], done, last => WaitResult.timedOut done last
  | outcome :: rest, done, _ =>
    match waiterDecide cfg outcome with
    | TickDecision.keepPolling => waiterLoop cfg rest (done + 1) (some outcome)
    | TickDecision.succeed snapshot => WaitResult.success (done + 1) snapshot
    | TickDecision.fail err => WaitResult.failure (done + 1) err

/-- Modelled from the spec: the Waiter, started in state Pending with no tick
performed. -/
def waiter {σ : Type} (cfg : WaitConfiguration) (ticks : List (PollOutcome σ)) :
    WaitResult σ :=
  waiterLoop cfg ticks 0 none

/-- Modelled from the spec: the Poll Outcome read off the triple a refresh
function returns (sections 3 and 9): an error is transient or fatal as the
given classification says, a nil snapshot without error is the synthetic
"absent" signal, anything else is Found with its signal. -/
def pollOutcome {σ : Type} (isTransient : GoError → Bool) :
    RefreshResult σ → PollOutcome σ
  | (_, _, some err) =>
    if isTransient err then PollOutcome.transientError err else PollOutcome.fatalError err
  | (none, _, none) => PollOutcome.notFound
  | (some snapshot, signal, none) => PollOutcome.found snapshot signal

/-! ## The MemoryDB snapshot resource (`snapshot.go`) -/

/-- SDK constant `memorydb.ErrCodeSnapshotNotFoundFault`. -/
def ErrCodeSnapshotNotFoundFault : String := "SnapshotNotFoundFault"

/-- Method `Error()` of a Go error, as printed by `%s`. -/
def GoError.Error : GoError → String
  | .awsErr code message => code ++ ": " ++ message
  | .errorString message => message
  | .wrapError message _ => message
  | .notFoundError _ _ message =>
    if message != "" then message else "couldn't find resource"

/-- Severity of a diagnostic (`diag.Severity`). -/
inductive Severity where
  | error
  | warning
  deriving DecidableEq, Repr

/-- One `diag.Diagnostic`. -/
structure Diagnostic where
  severity : Severity
  summary : String
  deriving DecidableEq, Repr

/-- Type `diag.Diagnostics`; the empty list is the `nil` of a successful
operation. -/
abbrev Diagnostics : Type := List Diagnostic

/-- Library `diag.Errorf` applied to an already formatted message: a single
error diagnostic. -/
def diagErrorf (summary : String) : Diagnostics :=
  [{ severity := Severity.error, summary := summary }]

/-- Whether diagnostics report an error (`Diagnostics.HasError`). -/
def hasError (diags : Diagnostics) : Bool :=
  diags.any (fun g => g.severity == Severity.error)

/-- Tags as a key/value map (`tftags.KeyValueTags` and its `Map()`). -/
abbrev KeyValueTags : Type := List (String × String)

/-- A value of the flattened cluster configuration map: a string or an int64. -/
inductive FlatValue where
  | str (value : String)
  | int (value : Int)
  deriving DecidableEq, Repr

/-- A Go `map[string]interface{}` with its entries in the order of the source's
map literal. -/
abbrev FlatMap : Type := List (String × FlatValue)

/-- A value handed to `d.Set` or read by `d.Get`. -/
inductive AttrValue where
  | stringPtr (value : Option String)
  | list (value : List FlatMap)
  | tags (value : KeyValueTags)
  deriving DecidableEq, Repr

/-- The `*schema.ResourceData` of one operation: the resource ID, the
new-resource mark, the current attribute values (most recent write first) and
the create and delete timeouts.  `schemaError` stands for the schema check
inside `d.Set`, which is library code: the error, if any, with which setting
that key to that value is refused. -/
structure ResourceData where
  id : String
  isNewResource : Bool
  attrs : List (String × AttrValue)
  timeoutCreate : Nat
  timeoutDelete : Nat
  schemaError : String → AttrValue → Option GoError

/-- Method `d.Id()`. -/
def ResourceData.Id (d : ResourceData) : String := d.id

/-- Method `d.SetId(v)`. -/
def ResourceData.SetId (d : ResourceData) (v : String) : ResourceData :=
  { d with id := v }

/-- Method `d.IsNewResource()`. -/
def ResourceData.IsNewResource (d : ResourceData) : Bool := d.isNewResource

/-- Method `d.Set(key, value)`: the value is stored unless the schema check
refuses it, in which case nothing is written and the error is returned. -/
def ResourceData.Set (d : ResourceData) (key : String) (value : AttrValue) :
    ResourceData × Option GoError :=
  match d.schemaError key value with
  | some err => (d, some err)
  | none => ({ d with attrs := (key, value) :: d.attrs }, none)

/-- Expression `d.Get(key).(string)`: the current string value, the zero value
`""` when unset. -/
def ResourceData.GetString (d : ResourceData) (key : String) : String :=
  match d.attrs.lookup key with
  | some (AttrValue.stringPtr p) => awsStringValue p
  | _ => ""

/-- Expression `d.Get(key).(map[string]interface{})`: the current tag map. -/
def ResourceData.GetTags (d : ResourceData) (key : String) : KeyValueTags :=
  match d.attrs.lookup key with
  | some (AttrValue.tags m) => m
  | _ => []

/-- SDK type `memorydb.CreateSnapshotInput`. -/
structure CreateSnapshotInput where
  ClusterName : Option String
  KmsKeyId : Option String
  SnapshotName : Option String
  Tags : KeyValueTags
  deriving DecidableEq, Repr

/-- A call that leaves the resource operation: a service request or a wait. -/
inductive Event where
  | createSnapshot (input : CreateSnapshotInput)
  | waitSnapshotAvailable (snapshotId : String) (timeout : Nat)
  | findSnapshotByName (name : String)
  | listTags (arn : String)
  | deleteSnapshot (snapshotName : Option String)
  | waitSnapshotDeleted (snapshotId : String) (timeout : Nat)
  deriving DecidableEq, Repr

/-- The `meta` argument (`*conns.AWSClient`) of a resource operation together
with everything the operation reaches through it that is not among the
sources: the name helpers of package `create`, the tag helpers of package
`tftags`, and the calls through `MemoryDBConn` (`CreateSnapshotWithContext`,
`DeleteSnapshotWithContext`, `waitSnapshotAvailable`, `waitSnapshotDeleted`,
`FindSnapshotByName`, `ListTags`), whose answers may depend on the calls made
so far. -/
structure AWSClient where
  createName : String → String → String
  namePrefixFromName : String → Option String
  mergeTags : KeyValueTags → KeyValueTags
  ignoreAWS : KeyValueTags → KeyValueTags
  ignoreConfig : KeyValueTags → KeyValueTags
  removeDefaultConfig : KeyValueTags → KeyValueTags
  createSnapshot : List Event → CreateSnapshotInput → Option GoError
  waitSnapshotAvailable : List Event → String → Nat → Option GoError
  findSnapshotByName : List Event → String → FinderOutcome Snapshot
  listTags : List Event → String → KeyValueTags × Option GoError
  deleteSnapshot : List Event → Option String → Option GoError
  waitSnapshotDeleted : List Event → String → Nat → Option GoError

/-- Function `flattenClusterConfiguration`. -/
def flattenClusterConfiguration (v : Option ClusterConfiguration) : List FlatMap :=
  match v with
  | none => []
  | some c =>
    let m : FlatMap := [
      ("description", FlatValue.str (awsStringValue c.Description)),
      ("engine_version", FlatValue.str (awsStringValue c.EngineVersion)),
      ("maintenance_window", FlatValue.str (awsStringValue c.MaintenanceWindow)),
      ("name", FlatValue.str (awsStringValue c.Name)),
      ("node_type", FlatValue.str (awsStringValue c.NodeType)),
      ("num_shards", FlatValue.int (awsInt64Value c.NumShards)),
      ("parameter_group_name", FlatValue.str (awsStringValue c.ParameterGroupName)),
      ("port", FlatValue.int (awsInt64Value c.Port)),
      ("snapshot_retention_limit", FlatValue.int (awsInt64Value c.SnapshotRetentionLimit)),
      ("snapshot_window", FlatValue.str (awsStringValue c.SnapshotWindow)),
      ("subnet_group_name", FlatValue.str (awsStringValue c.SubnetGroupName)),
      ("topic_arn", FlatValue.str (awsStringValue c.TopicArn)),
      ("vpc_id", FlatValue.str (awsStringValue c.VpcId))]
    [m]

/-- The tag part of `resourceSnapshotRead`, from `ListTags` to the end. -/
def resourceSnapshotReadTags (d : ResourceData) (meta : AWSClient) (log : List Event) :
    Diagnostics × ResourceData × List Event :=
  let arn := d.GetString "arn"
  let (tags, err) := meta.listTags log arn
  let log1 := log ++ [Event.listTags arn]
  match err with
  | some e =>
    (diagErrorf ("error listing tags for MemoryDB Snapshot (" ++ d.Id ++ "): " ++ e.Error),
      d, log1)
  | none =>
    let tags1 := meta.ignoreConfig (meta.ignoreAWS tags)
    match d.Set "tags" (AttrValue.tags (meta.removeDefaultConfig tags1)) with
    | (d1, some e) =>
      (diagErrorf ("error setting tags for MemoryDB Snapshot (" ++ d1.Id ++ "): " ++ e.Error),
        d1, log1)
    | (d1, none) =>
      match d1.Set "tags_all" (AttrValue.tags tags1) with
      | (d2, some e) =>
        (diagErrorf
          ("error setting tags_all for MemoryDB Snapshot (" ++ d2.Id ++ "): " ++ e.Error),
          d2, log1)
      | (d2, none) => ([], d2, log1)

/-- Function `resourceSnapshotRead`: the diagnostics, the resource data and the
call log afterwards, or a panic.  `snapshot.ARN` reads through `snapshot` and
`snapshot.ClusterConfiguration.Name` reads through
`snapshot.ClusterConfiguration`, without a guard. -/
def resourceSnapshotRead (d : ResourceData) (meta : AWSClient) (log : List Event) :
    GoResult (Diagnostics × ResourceData × List Event) :=
  let (snapshot, err) := meta.findSnapshotByName log d.Id
  let log1 := log ++ [Event.findSnapshotByName d.Id]
  if !d.IsNewResource && tfresourceNotFound err then
    GoResult.returned ([], d.SetId "", log1)
  else
    match err with
    | some e =>
      GoResult.returned
        (diagErrorf ("error reading MemoryDB Snapshot (" ++ d.Id ++ "): " ++ e.Error), d, log1)
    | none =>
      match snapshot with
      | none => GoResult.panicked "nil pointer dereference"
      | some s =>
        let d1 := (d.Set "arn" (AttrValue.stringPtr s.ARN)).1
        match d1.Set "cluster_configuration"
            (AttrValue.list (flattenClusterConfiguration s.ClusterConfiguration)) with
        | (d2, some e) =>
          GoResult.returned
            (diagErrorf ("failed to set cluster_configuration for MemoryDB Snapshot ("
              ++ d2.Id ++ "): " ++ e.Error), d2, log1)
        | (d2, none) =>
          match s.ClusterConfiguration with
          | none => GoResult.panicked "nil pointer dereference"
          | some cc =>
            let d3 := (d2.Set "cluster_name" (AttrValue.stringPtr cc.Name)).1
            let d4 := (d3.Set "kms_key_arn" (AttrValue.stringPtr s.KmsKeyId)).1
            let d5 := (d4.Set "name" (AttrValue.stringPtr s.Name)).1
            let d6 := (d5.Set "name_prefix"
              (AttrValue.stringPtr (meta.namePrefixFromName (awsStringValue s.Name)))).1
            let d7 := (d6.Set "source" (AttrValue.stringPtr s.Source)).1
            GoResult.returned (resourceSnapshotReadTags d7 meta log1)

/-- The `CreateSnapshotInput` that `resourceSnapshotCreate` builds for a name. -/
def createSnapshotInput (d : ResourceData) (meta : AWSClient) (name : String) :
    CreateSnapshotInput :=
  let tags := meta.mergeTags (d.GetTags "tags")
  let input : CreateSnapshotInput :=
    { ClusterName := awsString (d.GetString "cluster_name"),
      KmsKeyId := none,
      SnapshotName := awsString name,
      Tags := meta.ignoreAWS tags }
  let v := d.GetString "kms_key_arn"
  if v != "" then { input with KmsKeyId := awsString v } else input

/-- The snapshot name that `resourceSnapshotCreate` computes:
`create.Name(d.Get("name").(string), d.Get("name_prefix").(string))`. -/
def createSnapshotName (d : ResourceData) (meta : AWSClient) : String :=
  meta.createName (d.GetString "name") (d.GetString "name_prefix")

/-- Function `resourceSnapshotCreate`. -/
def resourceSnapshotCreate (d : ResourceData) (meta : AWSClient) (log : List Event) :
    GoResult (Diagnostics × ResourceData × List Event) :=
  let name := createSnapshotName d meta
  let input := createSnapshotInput d meta name
  let err := meta.createSnapshot log input
  let log1 := log ++ [Event.createSnapshot input]
  match err with
  | some e =>
    GoResult.returned
      (diagErrorf ("error creating MemoryDB Snapshot (" ++ name ++ "): " ++ e.Error), d, log1)
  | none =>
    let werr := meta.waitSnapshotAvailable log1 name d.timeoutCreate
    let log2 := log1 ++ [Event.waitSnapshotAvailable name d.timeoutCreate]
    match werr with
    | some e =>
      GoResult.returned
        (diagErrorf ("error waiting for MemoryDB Snapshot (" ++ name ++ ") to be created: "
          ++ e.Error), d, log2)
    | none => resourceSnapshotRead (d.SetId name) meta log2

/-- Function `resourceSnapshotDelete`. -/
def resourceSnapshotDelete (d : ResourceData) (meta : AWSClient) (log : List Event) :
    Diagnostics × ResourceData × List Event :=
  let err := meta.deleteSnapshot log (awsString d.Id)
  let log1 := log ++ [Event.deleteSnapshot (awsString d.Id)]
  if errCodeEquals err ErrCodeSnapshotNotFoundFault then
    ([], d, log1)
  else
    match err with
    | some e =>
      (diagErrorf ("error deleting MemoryDB Snapshot (" ++ d.Id ++ "): " ++ e.Error), d, log1)
    | none =>
      let werr := meta.waitSnapshotDeleted log1 d.Id d.timeoutDelete
      let log2 := log1 ++ [Event.waitSnapshotDeleted d.Id d.timeoutDelete]
      match werr with
      | some e =>
        (diagErrorf ("error waiting for MemoryDB Snapshot (" ++ d.Id ++ ") to be deleted: "
          ++ e.Error), d, log2)
      | none => ([], d, log2)

/-! ## The validators of the snapshot name (`snapshot.go`, `ResourceSnapshot`) -/

/-- A regular expression body as Go's `regexp/syntax` parses it: no match, the
empty match, a character class given by its ranges, concatenation,
alternation and repetition. -/
inductive Regex where
  | noMatch
  | emptyMatch
  | charClass (ranges : List (Char × Char))
  | concat (a b : Regex)
  | alternate (a b : Regex)
  | star (a : Regex)
  deriving Repr

/-- Whether a character lies in one of the ranges of a class. -/
def inRanges (ranges : List (Char × Char)) (c : Char) : Bool :=
  ranges.any (fun r => decide (r.1 ≤ c) && decide (c ≤ r.2))

/-- Whether a regular expression matches the empty string. -/
def Regex.nullable : Regex → Bool
  | .noMatch => false
  | .emptyMatch => true
  | .charClass _ => false
  | .concat a b => a.nullable && b.nullable
  | .alternate a b => a.nullable || b.nullable
  | .star _ => true

/-- What is left of a regular expression once the character `c` is read. -/
def Regex.deriv : Regex → Char → Regex
  | .noMatch, _ => .noMatch
  | .emptyMatch, _ => .noMatch
  | .charClass ranges, c => if inRanges ranges c then .emptyMatch else .noMatch
  | .concat a b, c =>
    if a.nullable then .alternate (.concat (a.deriv c) b) (b.deriv c)
    else .concat (a.deriv c) b
  | .alternate a b, c => .alternate (a.deriv c) (b.deriv c)
  | .star a, c => .concat (a.deriv c) (.star a)

/-- Whether a regular expression matches a whole text, read character by
character. -/
def Regex.fullMatch (r : Regex) : List Char → Bool
  | [] => r.nullable
  | c :: rest => (r.deriv c).fullMatch rest

/-- Pattern `x+`: one or more repetitions. -/
def Regex.plus (a : Regex) : Regex := .concat a (.star a)

/-- A compiled `*regexp.Regexp`: a body, anchored at the beginning of the text
when the pattern starts with `^` and at the end of the text when it ends with
`$` (without the multi-line flag, `$` is the end of the text). -/
structure Regexp where
  beginText : Bool
  body : Regex
  endText : Bool
  deriving Repr

/-- Method `r.MatchString(s)`: whether the string contains a match of the
pattern, that is, whether some run of characters that starts at an allowed
position and ends at an allowed position matches the body. -/
def Regexp.MatchString (re : Regexp) (s : String) : Bool :=
  let text := s.toList
  let starts := if re.beginText then [text] else text.tails
  starts.any (fun rest =>
    (if re.endText then [rest] else rest.inits).any re.body.fullMatch)

/-- Class `[a-z0-9-]`. -/
def lowerAlnumHyphen : List (Char × Char) := [('a', 'z'), ('0', '9'), ('-', '-')]

/-- Class `[a-z0-9]`. -/
def lowerAlnum : List (Char × Char) := [('a', 'z'), ('0', '9')]

/-- Pattern `[-][-]`. -/
def consecutiveHyphensRegexp : Regexp :=
  { beginText := false,
    body := .concat (.charClass [('-', '-')]) (.charClass [('-', '-')]),
    endText := false }

/-- Pattern `^[a-z0-9-]*[a-z0-9]$`. -/
def nameRegexp : Regexp :=
  { beginText := true,
    body := .concat (.star (.charClass lowerAlnumHyphen)) (.charClass lowerAlnum),
    endText := true }

/-- Pattern `^[a-z0-9-]+$`. -/
def namePrefixRegexp : Regexp :=
  { beginText := true,
    body := Regex.plus (.charClass lowerAlnumHyphen),
    endText := true }

/-- SDK constant `resource.UniqueIDSuffixLength`. -/
def UniqueIDSuffixLength : Nat := 26

/-- Type `schema.SchemaValidateFunc` on a string value: from the value and the
attribute key to warnings and errors. -/
abbrev SchemaValidateFunc : Type := String → String → List String × List GoError

/-- Library `validation.StringLenBetween(min, max)`; `len(v)` counts bytes. -/
def validationStringLenBetween (min max : Nat) : SchemaValidateFunc :=
  fun v k =>
    if v.utf8ByteSize < min || v.utf8ByteSize > max then
      ([], [GoError.errorString ("expected length of " ++ k ++ " to be in the range ("
        ++ toString min ++ " - " ++ toString max ++ "), got " ++ v)])
    else ([], [])

/-- Library `validation.StringDoesNotMatch(r, message)`. -/
def validationStringDoesNotMatch (r : Regexp) (message : String) : SchemaValidateFunc :=
  fun v k =>
    if r.MatchString v then
      ([], [GoError.errorString ("invalid value for " ++ k ++ " (" ++ message ++ ")")])
    else ([], [])

/-- Library `validation.StringMatch(r, message)`, for a non-empty message. -/
def validationStringMatch (r : Regexp) (message : String) : SchemaValidateFunc :=
  fun v k =>
    if !r.MatchString v then
      ([], [GoError.errorString ("invalid value for " ++ k ++ " (" ++ message ++ ")")])
    else ([], [])

/-- Library `validation.All`: every validator runs, warnings and errors are
collected in order. -/
def validationAll (validators : List SchemaValidateFunc) : SchemaValidateFunc :=
  fun v k =>
    validators.foldl
      (fun acc validator => (acc.1 ++ (validator v k).1, acc.2 ++ (validator v k).2))
      ([], [])

/-- The `ValidateFunc` of the attribute "name" in `ResourceSnapshot`. -/
def nameValidateFunc : SchemaValidateFunc :=
  validationAll [
    validationStringLenBetween 1 255,
    validationStringDoesNotMatch consecutiveHyphensRegexp
      "The name may not contain two consecutive hyphens.",
    validationStringMatch nameRegexp
      "Only lowercase alphanumeric characters and hyphens allowed. The name may not end with a hyphen."]

/-- The `ValidateFunc` of the attribute "name_prefix" in `ResourceSnapshot`. -/
def namePrefixValidateFunc : SchemaValidateFunc :=
  validationAll [
    validationStringLenBetween 1 (255 - UniqueIDSuffixLength),
    validationStringDoesNotMatch consecutiveHyphensRegexp
      "The name may not contain two consecutive hyphens.",
    validationStringMatch namePrefixRegexp
      "Only lowercase alphanumeric characters and hyphens allowed."]

/-- The words a regular expression stands for. -/
def Regex.Matches : Regex → List Char → Prop
  | .noMatch, _ => False
  | .emptyMatch, text => text = []
  | .charClass ranges, text => ∃ c, text = [c] ∧ inRanges ranges c = true
  | .concat a b, text => ∃ u v, text = u ++ v ∧ a.Matches u ∧ b.Matches v
  | .alternate a b, text => a.Matches text ∨ b.Matches text
  | .star a, text =>
    ∃ parts : List (List Char), text = parts.flatten ∧ ∀ p ∈ parts, p ≠ [] ∧ a.Matches p

/-- A character of a unique-id suffix: a digit or a lowercase hexadecimal
letter. -/
def IsSuffixChar (c : Char) : Prop :=
  c.isDigit = true ∨ ('a' ≤ c ∧ c ≤ 'f')

/-! ## The destroy check of the accelerator acceptance test
(`resource_aws_globalaccelerator_accelerator_test.go`) -/

/-- SDK type `terraform.InstanceState` (the field the check reads). -/
structure InstanceState where
  ID : String
  deriving DecidableEq, Repr

/-- SDK type `terraform.ResourceState` (the fields the check reads): `Type_` is
the Go field `Type`, `Primary` is a pointer. -/
structure ResourceState where
  Type_ : String
  Primary : Option InstanceState
  deriving DecidableEq, Repr

/-- Function `testAccCheckGlobalAcceleratorAcceleratorDestroy`.  The argument
`resources` is `s.RootModule().Resources` as the `range` loop visits it: Go
fixes no iteration order for a map, so every ordering of the entries is a
possible run.  Reading `rs.Primary.ID` through a nil `Primary` panics. -/
def testAccCheckGlobalAcceleratorAcceleratorDestroy (conn : GlobalAccelerator) :
    List (String × ResourceState) → GoResult (Option GoError) × GlobalAccelerator
  | [] => (GoResult.returned none, conn)
  | (_, rs) :: rest =>
    if rs.Type_ != "aws_globalaccelerator_accelerator" then
      testAccCheckGlobalAcceleratorAcceleratorDestroy conn rest
    else
      match rs.Primary with
      | none => (GoResult.panicked "nil pointer dereference", conn)
      | some primary =>
        let ((_, err), conn1) := AcceleratorByARN conn primary.ID
        if tfresourceNotFound err then
          testAccCheckGlobalAcceleratorAcceleratorDestroy conn1 rest
        else if err.isSome then
          (GoResult.returned err, conn1)
        else
          (GoResult.returned (some (GoError.errorString
            ("Global Accelerator Accelerator " ++ primary.ID ++ " still exists"))), conn1)

/-- The answers of `DescribeAccelerator` do not change while the check runs:
they depend on the request only, not on the calls made before. -/
def StableAnswers (conn : GlobalAccelerator) : Prop :=
  ∀ (calls1 calls2 : List Request) (input : Request),
    conn.describeAccelerator calls1 input = conn.describeAccelerator calls2 input

/-- Every resource of type "aws_globalaccelerator_accelerator" has a primary
instance. -/
def AcceleratorsHavePrimary (resources : List (String × ResourceState)) : Prop :=
  ∀ r ∈ resources, r.2.Type_ = "aws_globalaccelerator_accelerator" → r.2.Primary ≠ none

/-- For every resource of type "aws_globalaccelerator_accelerator",
`finder.AcceleratorByARN` on its primary ID returns a NotFound error. -/
def AllAcceleratorsNotFound (conn : GlobalAccelerator)
    (resources : List (String × ResourceState)) : Prop :=
  ∀ r ∈ resources, r.2.Type_ = "aws_globalaccelerator_accelerator" →
    ∀ primary, r.2.Primary = some primary →
      tfresourceNotFound (AcceleratorByARN conn primary.ID).1.2 = true

/-! ## Properties of refresh functions -/

/-- A refresh function swallows NotFound and nothing else: on a NotFound error of
the finder it returns `(nil, "", nil)`, on any other error it returns
`(nil, "", err)` with that same error. -/
def SwallowsOnlyNotFound {σ : Type}
    (refresh : (String → FinderOutcome σ) → String → GoResult (RefreshResult σ)) : Prop :=
  ∀ (find : String → FinderOutcome σ) (name : String),
    (tfresourceNotFound (find name).2 = true →
      refresh find name = GoResult.returned (none, "", none)) ∧
    ((find name).2 ≠ none → tfresourceNotFound (find name).2 = false →
      refresh find name = GoResult.returned (none, "", (find name).2))

/-- A refresh function projects the status field `status` out of a found
snapshot: when the finder returns a snapshot and a nil error it returns that
snapshot, the string value of the field and a nil error. -/
def ProjectsStatus {σ : Type}
    (refresh : (String → FinderOutcome σ) → String → GoResult (RefreshResult σ))
    (status : σ → Option String) : Prop :=
  ∀ (find : String → FinderOutcome σ) (name : String) (snapshot : σ),
    find name = (some snapshot, none) →
      refresh find name =
        GoResult.returned (some snapshot, awsStringValue (status snapshot), none)

/-- The result of a refresh function is determined by the outcome of its one
finder call. -/
def DependsOnlyOnOutcome {σ : Type}
    (refresh : (String → FinderOutcome σ) → String → GoResult (RefreshResult σ)) : Prop :=
  ∀ (find1 find2 : String → FinderOutcome σ) (name1 name2 : String),
    find1 name1 = find2 name2 → refresh find1 name1 = refresh find2 name2

/-! ## Example values -/

/-- A client with an empty call log whose three describe operations always
answer with the given pairs. -/
def constClient (a : Option DescribeAcceleratorOutput × Option GoError)
    (b : Option DescribeAcceleratorAttributesOutput × Option GoError)
    (c : Option DescribeEndpointGroupOutput × Option GoError) : GlobalAccelerator :=
  { calls := [],
    describeAccelerator := fun _ _ => a,
    describeAcceleratorAttributes := fun _ _ => b,
    describeEndpointGroup := fun _ _ => c }

/-- An accelerator as the service describes it. -/
def exampleAccelerator : Accelerator :=
  { AcceleratorArn := some "arn-1", Name := some "a", Status := some "DEPLOYED",
    Enabled := some true }

/-- Accelerator attributes as the service describes them. -/
def exampleAttributes : AcceleratorAttributes :=
  { FlowLogsEnabled := some false, FlowLogsS3Bucket := none, FlowLogsS3Prefix := none }

/-- A client that finds the accelerator and its attributes. -/
def foundClient : GlobalAccelerator :=
  constClient (some { Accelerator := some exampleAccelerator }, none)
    (some { AcceleratorAttributes := some exampleAttributes }, none)
    (some { EndpointGroup := none }, none)

/-- The service error for an accelerator that does not exist. -/
def acceleratorNotFoundException : GoError :=
  GoError.awsErr "AcceleratorNotFoundException" "no such accelerator"

/-- A client whose service reports that the accelerator does not exist. -/
def notFoundClient : GlobalAccelerator :=
  constClient (none, some acceleratorNotFoundException)
    (none, some acceleratorNotFoundException) (none, some acceleratorNotFoundException)

/-- A client whose service answers with empty success payloads: a nil output
for `DescribeAccelerator`, outputs with a nil field for the other two. -/
def emptyClient : GlobalAccelerator :=
  constClient (none, none) (some { AcceleratorAttributes := none }, none)
    (some { EndpointGroup := none }, none)

/-- An endpoint group as the service describes it. -/
def exampleEndpointGroup : EndpointGroup :=
  { EndpointGroupArn := some "arn-eg", EndpointGroupRegion := some "us-west-2" }

/-- A client that finds the endpoint group. -/
def endpointClient : GlobalAccelerator :=
  constClient (none, some acceleratorNotFoundException)
    (none, some acceleratorNotFoundException)
    (some { EndpointGroup := some exampleEndpointGroup }, none)

/-- A throttling error of the service. -/
def throttlingException : GoError :=
  GoError.awsErr "ThrottlingException" "rate exceeded"

/-- A client whose service throttles every describe call. -/
def throttledClient : GlobalAccelerator :=
  constClient (none, some throttlingException) (none, some throttlingException)
    (none, some throttlingException)

/-- A cluster with two security groups, one active and one whose status is nil. -/
def exampleCluster : Cluster :=
  { ARN := some "arn-c", Name := some "c1", ParameterGroupStatus := some "in-sync",
    SecurityGroups := [some { SecurityGroupId := some "sg-1", Status := some "active" },
      some { SecurityGroupId := some "sg-2", Status := none }],
    Status := some "available" }

/-- A cluster whose security groups are all active. -/
def settledCluster : Cluster :=
  { ARN := some "arn-c", Name := some "c1", ParameterGroupStatus := some "in-sync",
    SecurityGroups := [some { SecurityGroupId := some "sg-1", Status := some "active" },
      some { SecurityGroupId := some "sg-2", Status := some "active" }],
    Status := some "available" }

/-- A snapshot with the given status. -/
def exampleSnapshot (status : Option String) : Snapshot :=
  { ARN := some "arn-s", ClusterConfiguration := none, KmsKeyId := none,
    Name := some "snap-1", Source := some "manual", Status := status }

/-- The wait configuration of the scenario: target "available", no failure
signal, "creating" pending. -/
def availableWait : WaitConfiguration :=
  { target := [snapshotStatusAvailable], pending := [snapshotStatusCreating], failure := [],
    notFound := NotFoundPolicy.unexpected, timeout := 7200, pollInterval := 10,
    minTimeout := 0 }

/-- A cluster configuration as stored in a snapshot. -/
def exampleConfiguration : ClusterConfiguration :=
  { Description := none, EngineVersion := some "6.2", MaintenanceWindow := none,
    Name := some "c1", NodeType := some "db.t4g.small", NumShards := some 1,
    ParameterGroupName := none, Port := some 6379, SnapshotRetentionLimit := none,
    SnapshotWindow := none, SubnetGroupName := none, TopicArn := none, VpcId := none }

/-- A client whose `CreateSnapshot` and `waitSnapshotAvailable` answer with the
given errors and whose finder finds an available snapshot of cluster "c1". -/
def exampleMeta (createErr waitErr : Option GoError) : AWSClient :=
  { createName := fun name namePrefix => if name != "" then name else namePrefix ++ "0001",
    namePrefixFromName := fun _ => none,
    mergeTags := fun tags => tags,
    ignoreAWS := fun tags => tags,
    ignoreConfig := fun tags => tags,
    removeDefaultConfig := fun tags => tags,
    createSnapshot := fun _ _ => createErr,
    waitSnapshotAvailable := fun _ _ _ => waitErr,
    findSnapshotByName := fun _ name =>
      (some { ARN := some "arn-s", ClusterConfiguration := some exampleConfiguration,
              KmsKeyId := none, Name := some name, Source := some "manual",
              Status := some "available" }, none),
    listTags := fun _ _ => ([], none),
    deleteSnapshot := fun _ _ => none,
    waitSnapshotDeleted := fun _ _ _ => none }

/-- The resource data at the start of a create: no ID yet, marked new, name
"snap-1" and cluster "c1" configured. -/
def exampleData : ResourceData :=
  { id := "", isNewResource := true,
    attrs := [("name", AttrValue.stringPtr (some "snap-1")),
      ("cluster_name", AttrValue.stringPtr (some "c1"))],
    timeoutCreate := 7200, timeoutDelete := 7200,
    schemaError := fun _ _ => none }

/-- The create request built from `exampleData`. -/
def exampleCreateInput : CreateSnapshotInput :=
  { ClusterName := some "c1", KmsKeyId := none, SnapshotName := some "snap-1", Tags := [] }

/-- The resource data of a snapshot already in state: ID "snap-1", not new. -/
def storedData : ResourceData :=
  { id := "snap-1", isNewResource := false,
    attrs := [("name", AttrValue.stringPtr (some "snap-1")),
      ("cluster_name", AttrValue.stringPtr (some "c1"))],
    timeoutCreate := 7200, timeoutDelete := 7200,
    schemaError := fun _ _ => none }

/-- The service error for a snapshot that does not exist. -/
def snapshotNotFoundFault : GoError :=
  GoError.awsErr "SnapshotNotFoundFault" "no such snapshot"

/-- A client whose `DeleteSnapshot` and `waitSnapshotDeleted` answer with the
given errors. -/
def deleteMeta (deleteErr waitErr : Option GoError) : AWSClient :=
  { exampleMeta none none with
    deleteSnapshot := fun _ _ => deleteErr,
    waitSnapshotDeleted := fun _ _ _ => waitErr }

/-- A client whose `FindSnapshotByName` answers with the given outcome. -/
def findMeta (outcome : FinderOutcome Snapshot) : AWSClient :=
  { exampleMeta none none with findSnapshotByName := fun _ _ => outcome }

/-- The NotFound error a finder returns for an empty result. -/
def emptyResultError : GoError :=
  GoError.notFoundError none none "Empty result"

/-- A snapshot whose `ClusterConfiguration` is nil. -/
def bareSnapshot : Snapshot :=
  { ARN := some "arn-s", ClusterConfiguration := none, KmsKeyId := none,
    Name := some "snap-1", Source := some "manual", Status := some "available" }

/-- The 13 keys of the flattened cluster configuration. -/
def clusterConfigurationKeys : List String :=
  ["description", "engine_version", "maintenance_window", "name", "node_type", "num_shards",
    "parameter_group_name", "port", "snapshot_retention_limit", "snapshot_window",
    "subnet_group_name", "topic_arn", "vpc_id"]

/-- A client that finds the accelerator "arn-1" and reports every other ARN as
not existing. -/
def mixedClient : GlobalAccelerator :=
  { calls := [],
    describeAccelerator := fun _ input =>
      if input = Request.describeAcceleratorInput (some "arn-1") then
        (some { Accelerator := some exampleAccelerator }, none)
      else (none, some acceleratorNotFoundException),
    describeAcceleratorAttributes := fun _ _ => (none, some acceleratorNotFoundException),
    describeEndpointGroup := fun _ _ => (none, some acceleratorNotFoundException) }

/-- A state after destroy: two accelerators that are gone and a listener. -/
def destroyedState : List (String × ResourceState) :=
  [("aws_globalaccelerator_accelerator.a",
      { Type_ := "aws_globalaccelerator_accelerator", Primary := some { ID := "arn-2" } }),
    ("aws_globalaccelerator_listener.l",
      { Type_ := "aws_globalaccelerator_listener", Primary := some { ID := "arn-1" } }),
    ("aws_globalaccelerator_accelerator.b",
      { Type_ := "aws_globalaccelerator_accelerator", Primary := some { ID := "arn-3" } })]

/-- A state in which the accelerator "arn-1" still exists. -/
def lingeringState : List (String × ResourceState) :=
  [("aws_globalaccelerator_accelerator.a",
      { Type_ := "aws_globalaccelerator_accelerator", Primary := some { ID := "arn-2" } }),
    ("aws_globalaccelerator_accelerator.b",
      { Type_ := "aws_globalaccelerator_accelerator", Primary := some { ID := "arn-1" } })]

/-! ## Theorems: the Global Accelerator finders -/

/-- C1: for every client (hence every response `(output, err)` of the describe
call) and every ARN, `AcceleratorByARN` and `AcceleratorAttributesByARN` return
a nil error exactly when they return a non-nil snapshot, and then the snapshot
is the `Accelerator` (resp. `AcceleratorAttributes`) field of the describe
output. -/
theorem finder_never_nil_snapshot_with_nil_error (conn : GlobalAccelerator) (arn : String) :
    (((AcceleratorByARN conn arn).1.2 = none ↔ (AcceleratorByARN conn arn).1.1 ≠ none) ∧
      ((AcceleratorByARN conn arn).1.2 = none →
        (AcceleratorByARN conn arn).1.1 =
          (conn.describeAccelerator conn.calls
            (Request.describeAcceleratorInput (some arn))).1.bind
              DescribeAcceleratorOutput.Accelerator)) ∧
    (((AcceleratorAttributesByARN conn arn).1.2 = none ↔
        (AcceleratorAttributesByARN conn arn).1.1 ≠ none) ∧
      ((AcceleratorAttributesByARN conn arn).1.2 = none →
        (AcceleratorAttributesByARN conn arn).1.1 =
          (conn.describeAcceleratorAttributes conn.calls
            (Request.describeAcceleratorAttributesInput (some arn))).1.bind
              DescribeAcceleratorAttributesOutput.AcceleratorAttributes)) := by
  refine ⟨?_, ?_⟩
  · simp only [AcceleratorByARN, GlobalAccelerator.DescribeAccelerator, awsString]
    generalize conn.describeAccelerator conn.calls
      (Request.describeAcceleratorInput (some arn)) = r
    obtain ⟨output, err⟩ := r
    rcases err with _ | e
    · rcases output with _ | ⟨_ | a⟩ <;> simp [errCodeEquals]
    · by_cases h : errCodeEquals (some e) ErrCodeAcceleratorNotFoundException = true <;>
        simp [h]
  · simp only [AcceleratorAttributesByARN, GlobalAccelerator.DescribeAcceleratorAttributes,
      awsString]
    generalize conn.describeAcceleratorAttributes conn.calls
      (Request.describeAcceleratorAttributesInput (some arn)) = r
    obtain ⟨output, err⟩ := r
    rcases err with _ | e
    · rcases output with _ | ⟨_ | a⟩ <;> simp [errCodeEquals]
    · by_cases h : errCodeEquals (some e) ErrCodeAcceleratorNotFoundException = true <;>
        simp [h]

/-- Witness for C1, at a client that finds the accelerator. -/
theorem finder_never_nil_snapshot_with_nil_error_witness :
    (AcceleratorByARN foundClient "arn-1").1.2 = none ∧
    (AcceleratorByARN foundClient "arn-1").1.1 = some exampleAccelerator :=
  ⟨rfl, (finder_never_nil_snapshot_with_nil_error foundClient "arn-1").1.2 rfl⟩

/-- C2: when the describe call fails with an error whose code is
`AcceleratorNotFoundException`, `AcceleratorByARN` and
`AcceleratorAttributesByARN` each return a nil snapshot and a `NotFoundError`
whose `LastError` is that error and whose `LastRequest` is the describe input
built from the ARN. -/
theorem finder_service_not_found (conn : GlobalAccelerator) (arn : String) :
    (errCodeEquals
        (conn.describeAccelerator conn.calls (Request.describeAcceleratorInput (some arn))).2
        ErrCodeAcceleratorNotFoundException = true →
      (AcceleratorByARN conn arn).1 =
        (none, some (GoError.notFoundError
          (conn.describeAccelerator conn.calls (Request.describeAcceleratorInput (some arn))).2
          (some (Request.describeAcceleratorInput (some arn))) ""))) ∧
    (errCodeEquals
        (conn.describeAcceleratorAttributes conn.calls
          (Request.describeAcceleratorAttributesInput (some arn))).2
        ErrCodeAcceleratorNotFoundException = true →
      (AcceleratorAttributesByARN conn arn).1 =
        (none, some (GoError.notFoundError
          (conn.describeAcceleratorAttributes conn.calls
            (Request.describeAcceleratorAttributesInput (some arn))).2
          (some (Request.describeAcceleratorAttributesInput (some arn))) ""))) := by
  refine ⟨?_, ?_⟩
  · intro h
    simp only [AcceleratorByARN, GlobalAccelerator.DescribeAccelerator, awsString]
    rw [if_pos h]
  · intro h
    simp only [AcceleratorAttributesByARN, GlobalAccelerator.DescribeAcceleratorAttributes,
      awsString]
    rw [if_pos h]

/-- Witness for C2: the service answers `AcceleratorNotFoundException`. -/
theorem finder_service_not_found_witness :
    (AcceleratorByARN notFoundClient "arn-1").1 =
      (none, some (GoError.notFoundError (some acceleratorNotFoundException)
        (some (Request.describeAcceleratorInput (some "arn-1"))) "")) ∧
    (AcceleratorAttributesByARN notFoundClient "arn-1").1 =
      (none, some (GoError.notFoundError (some acceleratorNotFoundException)
        (some (Request.describeAcceleratorAttributesInput (some "arn-1"))) "")) :=
  ⟨(finder_service_not_found notFoundClient "arn-1").1 (by decide),
    (finder_service_not_found notFoundClient "arn-1").2 (by decide)⟩

/-- C3: when the describe call returns no error but a nil output or a nil
`Accelerator` (resp. `AcceleratorAttributes`) field, `AcceleratorByARN` and
`AcceleratorAttributesByARN` each return a nil snapshot and a `NotFoundError`
with `Message` "Empty result", the describe input as `LastRequest` and no
`LastError`. -/
theorem finder_empty_result (conn : GlobalAccelerator) (arn : String) :
    ((conn.describeAccelerator conn.calls
        (Request.describeAcceleratorInput (some arn))).2 = none →
      ((conn.describeAccelerator conn.calls
          (Request.describeAcceleratorInput (some arn))).1 = none ∨
        ∃ out, (conn.describeAccelerator conn.calls
          (Request.describeAcceleratorInput (some arn))).1 = some out ∧
          out.Accelerator = none) →
      (AcceleratorByARN conn arn).1 =
        (none, some (GoError.notFoundError none
          (some (Request.describeAcceleratorInput (some arn))) "Empty result"))) ∧
    ((conn.describeAcceleratorAttributes conn.calls
        (Request.describeAcceleratorAttributesInput (some arn))).2 = none →
      ((conn.describeAcceleratorAttributes conn.calls
          (Request.describeAcceleratorAttributesInput (some arn))).1 = none ∨
        ∃ out, (conn.describeAcceleratorAttributes conn.calls
          (Request.describeAcceleratorAttributesInput (some arn))).1 = some out ∧
          out.AcceleratorAttributes = none) →
      (AcceleratorAttributesByARN conn arn).1 =
        (none, some (GoError.notFoundError none
          (some (Request.describeAcceleratorAttributesInput (some arn)))
          "Empty result"))) := by
  refine ⟨?_, ?_⟩
  · intro h1 e1
    simp only [AcceleratorByARN, GlobalAccelerator.DescribeAccelerator, awsString]
    rw [h1]
    rcases e1 with e | ⟨out, e, f⟩
    · rw [e]; simp [errCodeEquals]
    · rw [e]; simp [errCodeEquals, f]
  · intro h2 e2
    simp only [AcceleratorAttributesByARN, GlobalAccelerator.DescribeAcceleratorAttributes,
      awsString]
    rw [h2]
    rcases e2 with e | ⟨out, e, f⟩
    · rw [e]; simp [errCodeEquals]
    · rw [e]; simp [errCodeEquals, f]

/-- Witness for C3: identifier "missing-1", the service answers with an empty
success payload (a nil output for one call, an output with a nil field for the
other). -/
theorem finder_empty_result_witness :
    (AcceleratorByARN emptyClient "missing-1").1 =
      (none, some (GoError.notFoundError none
        (some (Request.describeAcceleratorInput (some "missing-1"))) "Empty result")) ∧
    (AcceleratorAttributesByARN emptyClient "missing-1").1 =
      (none, some (GoError.notFoundError none
        (some (Request.describeAcceleratorAttributesInput (some "missing-1")))
        "Empty result")) :=
  ⟨(finder_empty_result emptyClient "missing-1").1 rfl (Or.inl rfl),
    (finder_empty_result emptyClient "missing-1").2 rfl
      (Or.inr ⟨{ AcceleratorAttributes := none }, rfl, rfl⟩)⟩

/-- C4: when the describe call fails with an error whose code is not
`AcceleratorNotFoundException`, `AcceleratorByARN` and
`AcceleratorAttributesByARN` return a nil snapshot and that very error, and so
does `EndpointGroupByARN` (for it, whatever the code of the error); in each
case the call log has grown by exactly the one describe request. -/
theorem finder_propagates_other_errors (conn : GlobalAccelerator) (arn : String) :
    ((conn.describeAccelerator conn.calls
        (Request.describeAcceleratorInput (some arn))).2 ≠ none →
      errCodeEquals
        (conn.describeAccelerator conn.calls (Request.describeAcceleratorInput (some arn))).2
        ErrCodeAcceleratorNotFoundException = false →
      (AcceleratorByARN conn arn).1 =
        (none, (conn.describeAccelerator conn.calls
          (Request.describeAcceleratorInput (some arn))).2) ∧
      (AcceleratorByARN conn arn).2.calls =
        conn.calls ++ [Request.describeAcceleratorInput (some arn)]) ∧
    ((conn.describeAcceleratorAttributes conn.calls
        (Request.describeAcceleratorAttributesInput (some arn))).2 ≠ none →
      errCodeEquals
        (conn.describeAcceleratorAttributes conn.calls
          (Request.describeAcceleratorAttributesInput (some arn))).2
        ErrCodeAcceleratorNotFoundException = false →
      (AcceleratorAttributesByARN conn arn).1 =
        (none, (conn.describeAcceleratorAttributes conn.calls
          (Request.describeAcceleratorAttributesInput (some arn))).2) ∧
      (AcceleratorAttributesByARN conn arn).2.calls =
        conn.calls ++ [Request.describeAcceleratorAttributesInput (some arn)]) ∧
    ((conn.describeEndpointGroup conn.calls
        (Request.describeEndpointGroupInput (some arn))).2 ≠ none →
      (EndpointGroupByARN conn arn).1 =
        GoResult.returned (none, (conn.describeEndpointGroup conn.calls
          (Request.describeEndpointGroupInput (some arn))).2) ∧
      (EndpointGroupByARN conn arn).2.calls =
        conn.calls ++ [Request.describeEndpointGroupInput (some arn)]) := by
  refine ⟨?_, ?_, ?_⟩
  · simp only [AcceleratorByARN, GlobalAccelerator.DescribeAccelerator, awsString]
    generalize conn.describeAccelerator conn.calls
      (Request.describeAcceleratorInput (some arn)) = r
    obtain ⟨output, err⟩ := r
    intro h1 c1
    rcases err with _ | e
    · exact absurd rfl h1
    · simp only at c1
      simp [c1, GlobalAccelerator.record]
  · simp only [AcceleratorAttributesByARN, GlobalAccelerator.DescribeAcceleratorAttributes,
      awsString]
    generalize conn.describeAcceleratorAttributes conn.calls
      (Request.describeAcceleratorAttributesInput (some arn)) = r
    obtain ⟨output, err⟩ := r
    intro h2 c2
    rcases err with _ | e
    · exact absurd rfl h2
    · simp only at c2
      simp [c2, GlobalAccelerator.record]
  · simp only [EndpointGroupByARN, GlobalAccelerator.DescribeEndpointGroup, awsString]
    generalize conn.describeEndpointGroup conn.calls
      (Request.describeEndpointGroupInput (some arn)) = r
    obtain ⟨output, err⟩ := r
    intro h3
    rcases err with _ | e
    · exact absurd rfl h3
    · simp [GlobalAccelerator.record]

/-- Witness for C4: a throttled describe call. -/
theorem finder_propagates_other_errors_witness :
    ((AcceleratorByARN throttledClient "arn-1").1 = (none, some throttlingException) ∧
      (AcceleratorByARN throttledClient "arn-1").2.calls =
        [Request.describeAcceleratorInput (some "arn-1")]) ∧
    ((AcceleratorAttributesByARN throttledClient "arn-1").1 =
        (none, some throttlingException) ∧
      (AcceleratorAttributesByARN throttledClient "arn-1").2.calls =
        [Request.describeAcceleratorAttributesInput (some "arn-1")]) ∧
    ((EndpointGroupByARN throttledClient "arn-1").1 =
        GoResult.returned (none, some throttlingException) ∧
      (EndpointGroupByARN throttledClient "arn-1").2.calls =
        [Request.describeEndpointGroupInput (some "arn-1")]) :=
  ⟨(finder_propagates_other_errors throttledClient "arn-1").1
      (by simp [throttledClient, constClient]) (by decide),
    (finder_propagates_other_errors throttledClient "arn-1").2.1
      (by simp [throttledClient, constClient]) (by decide),
    (finder_propagates_other_errors throttledClient "arn-1").2.2
      (by simp [throttledClient, constClient])⟩

/-- C5, as stated, fails: at the client whose `DescribeEndpointGroup` answers
"missing-1" with no error and an output whose `EndpointGroup` is nil,
`EndpointGroupByARN` returns a nil snapshot together with a nil error, and no
NotFound error. -/
theorem endpointGroup_empty_payload_counterexample :
    emptyClient.describeEndpointGroup emptyClient.calls
        (Request.describeEndpointGroupInput (some "missing-1")) =
      (some { EndpointGroup := none }, none) ∧
    (EndpointGroupByARN emptyClient "missing-1").1 = GoResult.returned (none, none) ∧
    ¬ ∃ err, (EndpointGroupByARN emptyClient "missing-1").1 =
        GoResult.returned (none, some err) ∧ tfresourceNotFound (some err) = true := by
  refine ⟨rfl, rfl, ?_⟩
  rintro ⟨err, h, _⟩
  have h2 : GoResult.returned ((none : Option EndpointGroup), (none : Option GoError)) =
      GoResult.returned (none, some err) := h
  cases h2

/-- C5, amended: when the describe call returns no error and a non-nil output,
`EndpointGroupByARN` returns the `EndpointGroup` field of that output as it is,
with a nil error; so for an output whose `EndpointGroup` is nil it returns a nil
snapshot with a nil error, not a NotFound error. -/
theorem endpointGroup_returns_output_field (conn : GlobalAccelerator) (arn : String)
    (out : DescribeEndpointGroupOutput)
    (h : conn.describeEndpointGroup conn.calls
      (Request.describeEndpointGroupInput (some arn)) = (some out, none)) :
    (EndpointGroupByARN conn arn).1 = GoResult.returned (out.EndpointGroup, none) ∧
    (out.EndpointGroup = none →
      (EndpointGroupByARN conn arn).1 = GoResult.returned (none, none)) := by
  have hres : (EndpointGroupByARN conn arn).1 =
      GoResult.returned (out.EndpointGroup, none) := by
    simp only [EndpointGroupByARN, GlobalAccelerator.DescribeEndpointGroup, awsString, h]
    simp
  refine ⟨hres, ?_⟩
  intro hnone
  rw [hres, hnone]

/-- Witness for the amended C5: an endpoint group that the service describes is
returned as the snapshot, with a nil error. -/
theorem endpointGroup_returns_output_field_witness :
    (EndpointGroupByARN endpointClient "arn-eg").1 =
      GoResult.returned (some exampleEndpointGroup, none) :=
  (endpointGroup_returns_output_field endpointClient "arn-eg"
    { EndpointGroup := some exampleEndpointGroup } rfl).1

/-! ## Theorems: the MemoryDB status extractors -/

/-- On a list of non-nil security groups the loop of `statusClusterSecurityGroups`
returns, with "active" when all the statuses are "active" and "modifying"
otherwise. -/
theorem securityGroupsLoop_map_some (sgs : List SecurityGroupMembership) :
    securityGroupsLoop (sgs.map some) =
      GoResult.returned
        (if sgs.all (fun sg => awsStringValue sg.Status == clusterSecurityGroupStatusActive)
          then clusterSecurityGroupStatusActive else clusterSecurityGroupStatusModifying) := by
  induction sgs with
  | nil => rfl
  | cons sg rest ih =>
    simp only [List.map_cons, securityGroupsLoop, List.all_cons]
    by_cases h : awsStringValue sg.Status = clusterSecurityGroupStatusActive
    · simp [h, ih]
    · simp [h]

/-- C6: for every found cluster whose security groups are `sgs` (any list, the
empty one and nil statuses included), `statusClusterSecurityGroups` returns the
cluster with a nil error and a signal that is "active" if and only if every
group has status "active", and is "modifying" otherwise. -/
theorem statusClusterSecurityGroups_aggregates
    (find : String → FinderOutcome Cluster) (clusterName : String) (cluster : Cluster)
    (sgs : List SecurityGroupMembership)
    (hfind : find clusterName = (some cluster, none))
    (hsgs : cluster.SecurityGroups = sgs.map some) :
    ∃ signal : String,
      statusClusterSecurityGroups find clusterName =
        GoResult.returned (some cluster, signal, none) ∧
      (signal = "active" ↔ ∀ sg ∈ sgs, awsStringValue sg.Status = "active") ∧
      (signal ≠ "active" → signal = "modifying") := by
  refine ⟨if sgs.all (fun sg => awsStringValue sg.Status == clusterSecurityGroupStatusActive)
      then clusterSecurityGroupStatusActive else clusterSecurityGroupStatusModifying, ?_, ?_, ?_⟩
  · simp only [statusClusterSecurityGroups, hfind, hsgs, securityGroupsLoop_map_some]
    simp [tfresourceNotFound]
  · by_cases h : sgs.all
        (fun sg => awsStringValue sg.Status == clusterSecurityGroupStatusActive) = true
    · rw [if_pos h]
      simp only [List.all_eq_true, beq_iff_eq] at h
      exact ⟨fun _ => h, fun _ => rfl⟩
    · rw [if_neg h]
      simp only [List.all_eq_true, beq_iff_eq] at h
      constructor
      · intro hc
        exact absurd hc (by decide)
      · intro hall
        exact absurd hall h
  · by_cases h : sgs.all
        (fun sg => awsStringValue sg.Status == clusterSecurityGroupStatusActive) = true
    · rw [if_pos h]
      intro hc
      exact absurd rfl hc
    · rw [if_neg h]
      intro _
      rfl

/-- Witness for C6: one group is active and the status of the other is nil, so
the aggregate is "modifying". -/
theorem statusClusterSecurityGroups_aggregates_witness :
    statusClusterSecurityGroups (fun _ => (some exampleCluster, none)) "c1" =
      GoResult.returned (some exampleCluster, "modifying", none) := by
  obtain ⟨signal, h, hiff, hmod⟩ :=
    statusClusterSecurityGroups_aggregates (fun _ => (some exampleCluster, none)) "c1"
      exampleCluster
      [{ SecurityGroupId := some "sg-1", Status := some "active" },
        { SecurityGroupId := some "sg-2", Status := none }] rfl rfl
  have hne : signal ≠ "active" := by
    intro hs
    have h2 := hiff.1 hs { SecurityGroupId := some "sg-2", Status := none } (by simp)
    exact absurd h2 (by decide)
  rw [hmod hne] at h
  exact h

/-- C7: each of the six status extractors turns a NotFound error of its finder
into `(nil, "", nil)` and returns any other error of the finder unchanged as
`(nil, "", err)`. -/
theorem status_swallows_only_not_found :
    SwallowsOnlyNotFound statusACL ∧ SwallowsOnlyNotFound statusCluster ∧
    SwallowsOnlyNotFound statusClusterParameterGroup ∧
    SwallowsOnlyNotFound statusClusterSecurityGroups ∧
    SwallowsOnlyNotFound statusSnapshot ∧ SwallowsOnlyNotFound statusUser := by
  refine ⟨?_, ?_, ?_, ?_, ?_, ?_⟩ <;> intro find name <;> constructor
  all_goals first
    | (intro h
       simp only [statusACL, statusCluster, statusClusterParameterGroup,
         statusClusterSecurityGroups, statusSnapshot, statusUser]
       rw [if_pos h])
    | (intro hne h
       simp only [statusACL, statusCluster, statusClusterParameterGroup,
         statusClusterSecurityGroups, statusSnapshot, statusUser]
       generalize find name = r at hne h
       obtain ⟨snapshot, err⟩ := r
       rcases err with _ | e
       · exact absurd rfl hne
       · simp only at h
         simp [h])

/-- Witness for C7: `statusSnapshot` on a NotFound error and on a throttling
error of the finder. -/
theorem status_swallows_only_not_found_witness :
    statusSnapshot (fun _ => (none, some (GoError.notFoundError none none "Empty result")))
        "snap-1" = GoResult.returned (none, "", none) ∧
    statusSnapshot (fun _ => (none, some throttlingException)) "snap-1" =
      GoResult.returned (none, "", some throttlingException) :=
  ⟨(status_swallows_only_not_found.2.2.2.2.1
      (fun _ => (none, some (GoError.notFoundError none none "Empty result"))) "snap-1").1 rfl,
    (status_swallows_only_not_found.2.2.2.2.1
      (fun _ => (none, some throttlingException)) "snap-1").2 (by simp) rfl⟩

/-- C8: `statusACL`, `statusCluster`, `statusClusterParameterGroup`,
`statusSnapshot` and `statusUser` return a found snapshot unchanged with a nil
error and the string value of its status field (`ParameterGroupStatus` for
`statusClusterParameterGroup`; a nil field gives ""), and their result is
determined by the outcome of the finder call alone. -/
theorem status_is_pure_projection :
    (ProjectsStatus statusACL ACL.Status ∧ DependsOnlyOnOutcome statusACL) ∧
    (ProjectsStatus statusCluster Cluster.Status ∧ DependsOnlyOnOutcome statusCluster) ∧
    (ProjectsStatus statusClusterParameterGroup Cluster.ParameterGroupStatus ∧
      DependsOnlyOnOutcome statusClusterParameterGroup) ∧
    (ProjectsStatus statusSnapshot Snapshot.Status ∧ DependsOnlyOnOutcome statusSnapshot) ∧
    (ProjectsStatus statusUser User.Status ∧ DependsOnlyOnOutcome statusUser) := by
  refine ⟨⟨?_, ?_⟩, ⟨?_, ?_⟩, ⟨?_, ?_⟩, ⟨?_, ?_⟩, ⟨?_, ?_⟩⟩
  all_goals first
    | (intro find name snapshot h
       simp only [statusACL, statusCluster, statusClusterParameterGroup, statusSnapshot,
         statusUser, h]
       simp [tfresourceNotFound])
    | (intro find1 find2 name1 name2 h
       simp only [statusACL, statusCluster, statusClusterParameterGroup, statusSnapshot,
         statusUser, h])

/-- Witness for C8: `statusSnapshot` on a snapshot that is being created and on
one whose status is nil, and `statusClusterParameterGroup` on a cluster. -/
theorem status_is_pure_projection_witness :
    statusSnapshot (fun _ => (some (exampleSnapshot (some "creating")), none)) "snap-1" =
      GoResult.returned (some (exampleSnapshot (some "creating")), "creating", none) ∧
    statusSnapshot (fun _ => (some (exampleSnapshot none), none)) "snap-1" =
      GoResult.returned (some (exampleSnapshot none), "", none) ∧
    statusClusterParameterGroup (fun _ => (some exampleCluster, none)) "c1" =
      GoResult.returned (some exampleCluster, "in-sync", none) :=
  ⟨status_is_pure_projection.2.2.2.1.1 _ "snap-1" (exampleSnapshot (some "creating")) rfl,
    status_is_pure_projection.2.2.2.1.1 _ "snap-1" (exampleSnapshot none) rfl,
    status_is_pure_projection.2.2.1.1 _ "c1" exampleCluster rfl⟩

/-! ## Theorems: the waiter -/

/-- Ticks on which the waiter keeps polling are consumed one by one: the loop
goes on with the remaining ticks, the count raised by their number. -/
theorem waiterLoop_skips_pending_ticks {σ : Type} (cfg : WaitConfiguration)
    (pre : List (PollOutcome σ)) (outcome : PollOutcome σ) (post : List (PollOutcome σ))
    (hpre : ∀ o ∈ pre, waiterDecide cfg o = TickDecision.keepPolling)
    (done : Nat) (last : Option (PollOutcome σ)) :
    ∃ last1, waiterLoop cfg (pre ++ outcome :: post) done last =
      waiterLoop cfg (outcome :: post) (done + pre.length) last1 := by
  induction pre generalizing done last with
  | nil => exact ⟨last, rfl⟩
  | cons o rest ih =>
    have ho : waiterDecide cfg o = TickDecision.keepPolling := hpre o (List.mem_cons_self o rest)
    have hrest : ∀ x ∈ rest, waiterDecide cfg x = TickDecision.keepPolling :=
      fun x hx => hpre x (List.mem_cons_of_mem o hx)
    obtain ⟨last1, h⟩ := ih hrest (done + 1) (some o)
    refine ⟨last1, ?_⟩
    have step : waiterLoop cfg ((o :: rest) ++ outcome :: post) done last =
        waiterLoop cfg (rest ++ outcome :: post) (done + 1) (some o) := by
      conv_lhs => rw [List.cons_append, waiterLoop]
      simp only [ho]
    rw [step, h, List.length_cons]
    congr 1
    omega

/-- C9: whatever the wait configuration and the tick sequence, when the ticks
`pre` all left the waiter pending and the next tick is Found with a signal in
the target set, the waiter returns success with that tick's snapshot after
`pre.length + 1` ticks, whatever ticks `post` would have followed; and for a
configuration with target "available" and no failure signal, the three ticks
that `statusSnapshot` produces for a snapshot seen "creating", "creating" and
"available" give success after exactly 3 ticks with the available snapshot. -/
theorem waiter_succeeds_at_first_target_tick {σ : Type} (cfg : WaitConfiguration)
    (pre post : List (PollOutcome σ)) (snapshot : σ) (signal : String)
    (hpre : ∀ o ∈ pre, waiterDecide cfg o = TickDecision.keepPolling)
    (htarget : signal ∈ cfg.target) :
    waiter cfg (pre ++ PollOutcome.found snapshot signal :: post) =
      WaitResult.success (pre.length + 1) (some snapshot) ∧
    (∀ (cfg1 : WaitConfiguration) (isTransient : GoError → Bool) (creating available : Snapshot),
      cfg1.target = ["available"] → cfg1.failure = [] →
      creating.Status = some "creating" → available.Status = some "available" →
      ∃ r1 r2 r3 : RefreshResult Snapshot,
        statusSnapshot (fun _ => (some creating, none)) "snap-1" = GoResult.returned r1 ∧
        statusSnapshot (fun _ => (some creating, none)) "snap-1" = GoResult.returned r2 ∧
        statusSnapshot (fun _ => (some available, none)) "snap-1" = GoResult.returned r3 ∧
        waiter cfg1 [pollOutcome isTransient r1, pollOutcome isTransient r2,
          pollOutcome isTransient r3] = WaitResult.success 3 (some available)) := by
  constructor
  · obtain ⟨last1, h⟩ :=
      waiterLoop_skips_pending_ticks cfg pre (PollOutcome.found snapshot signal) post hpre 0 none
    simp only [waiter, h, waiterLoop, waiterDecide, if_pos htarget]
    congr 1
    omega
  · intro cfg1 isTransient creating available ht hf hc ha
    refine ⟨(some creating, "creating", none), (some creating, "creating", none),
      (some available, "available", none), ?_, ?_, ?_, ?_⟩
    · simp [statusSnapshot, tfresourceNotFound, hc, awsStringValue]
    · simp [statusSnapshot, tfresourceNotFound, hc, awsStringValue]
    · simp [statusSnapshot, tfresourceNotFound, ha, awsStringValue]
    · simp [waiter, waiterLoop, waiterDecide, pollOutcome, ht, hf]

/-- Witness for C9: after a "creating" tick and a transient error, the tick
"available" ends the wait with success after 3 ticks; the "deleting" tick that
would have followed is not performed. -/
theorem waiter_succeeds_at_first_target_tick_witness :
    waiter availableWait
      ([PollOutcome.found (exampleSnapshot (some "creating")) "creating",
          PollOutcome.transientError throttlingException] ++
        PollOutcome.found (exampleSnapshot (some "available")) "available" ::
          [PollOutcome.found (exampleSnapshot (some "deleting")) "deleting"]) =
      WaitResult.success 3 (some (exampleSnapshot (some "available"))) :=
  (waiter_succeeds_at_first_target_tick availableWait
    [PollOutcome.found (exampleSnapshot (some "creating")) "creating",
      PollOutcome.transientError throttlingException]
    [PollOutcome.found (exampleSnapshot (some "deleting")) "deleting"]
    (exampleSnapshot (some "available")) "available"
    (by
      intro o ho
      simp only [List.mem_cons, List.mem_singleton, List.not_mem_nil, or_false] at ho
      rcases ho with rfl | rfl
      · simp [waiterDecide, availableWait, snapshotStatusAvailable]
      · rfl)
    (by simp [availableWait, snapshotStatusAvailable])).1

/-! ## Theorems: the MemoryDB snapshot resource -/

/-- C10: `resourceSnapshotCreate` runs mutate, wait, read-back in that order.
If `CreateSnapshot` fails it returns error diagnostics, leaves the resource
data (the ID included) untouched and has made that one call only; if
`CreateSnapshot` succeeds and the waiter fails it returns error diagnostics,
leaves the resource data untouched and has made the create call and the wait
only; if both succeed its result is that of `resourceSnapshotRead` on the
resource data whose ID is the snapshot name, started after the create call and
the wait. -/
theorem resourceSnapshotCreate_mutate_wait_read (d : ResourceData) (meta : AWSClient)
    (log : List Event) :
    (∀ e, meta.createSnapshot log (createSnapshotInput d meta (createSnapshotName d meta)) =
        some e →
      ∃ diags, hasError diags = true ∧
        resourceSnapshotCreate d meta log = GoResult.returned (diags, d,
          log ++ [Event.createSnapshot
            (createSnapshotInput d meta (createSnapshotName d meta))])) ∧
    (meta.createSnapshot log (createSnapshotInput d meta (createSnapshotName d meta)) = none →
      ∀ e, meta.waitSnapshotAvailable
          (log ++ [Event.createSnapshot
            (createSnapshotInput d meta (createSnapshotName d meta))])
          (createSnapshotName d meta) d.timeoutCreate = some e →
      ∃ diags, hasError diags = true ∧
        resourceSnapshotCreate d meta log = GoResult.returned (diags, d,
          log ++ [Event.createSnapshot
            (createSnapshotInput d meta (createSnapshotName d meta))] ++
            [Event.waitSnapshotAvailable (createSnapshotName d meta) d.timeoutCreate])) ∧
    (meta.createSnapshot log (createSnapshotInput d meta (createSnapshotName d meta)) = none →
      meta.waitSnapshotAvailable
          (log ++ [Event.createSnapshot
            (createSnapshotInput d meta (createSnapshotName d meta))])
          (createSnapshotName d meta) d.timeoutCreate = none →
      (d.SetId (createSnapshotName d meta)).Id = createSnapshotName d meta ∧
      resourceSnapshotCreate d meta log =
        resourceSnapshotRead (d.SetId (createSnapshotName d meta)) meta
          (log ++ [Event.createSnapshot
            (createSnapshotInput d meta (createSnapshotName d meta))] ++
            [Event.waitSnapshotAvailable (createSnapshotName d meta) d.timeoutCreate])) := by
  refine ⟨?_, ?_, ?_⟩
  · intro e he
    refine ⟨diagErrorf ("error creating MemoryDB Snapshot (" ++ createSnapshotName d meta
      ++ "): " ++ e.Error), rfl, ?_⟩
    simp only [resourceSnapshotCreate, he]
  · intro hc e he
    refine ⟨diagErrorf ("error waiting for MemoryDB Snapshot (" ++ createSnapshotName d meta
      ++ ") to be created: " ++ e.Error), rfl, ?_⟩
    simp only [resourceSnapshotCreate, hc, he]
  · intro hc hw
    exact ⟨rfl, by simp only [resourceSnapshotCreate, hc, hw]⟩

/-- Witness for C10: a create call that is throttled, a wait that fails after a
successful create call, and a create where both succeed. -/
theorem resourceSnapshotCreate_mutate_wait_read_witness :
    (∃ diags, hasError diags = true ∧
      resourceSnapshotCreate exampleData (exampleMeta (some throttlingException) none) [] =
        GoResult.returned (diags, exampleData,
          [] ++ [Event.createSnapshot (createSnapshotInput exampleData
            (exampleMeta (some throttlingException) none)
            (createSnapshotName exampleData
              (exampleMeta (some throttlingException) none)))])) ∧
    (∃ diags, hasError diags = true ∧
      resourceSnapshotCreate exampleData (exampleMeta none (some throttlingException)) [] =
        GoResult.returned (diags, exampleData,
          [] ++ [Event.createSnapshot (createSnapshotInput exampleData
            (exampleMeta none (some throttlingException))
            (createSnapshotName exampleData
              (exampleMeta none (some throttlingException))))] ++
            [Event.waitSnapshotAvailable (createSnapshotName exampleData
              (exampleMeta none (some throttlingException))) exampleData.timeoutCreate])) ∧
    resourceSnapshotCreate exampleData (exampleMeta none none) [] =
      resourceSnapshotRead (exampleData.SetId "snap-1") (exampleMeta none none)
        [Event.createSnapshot exampleCreateInput, Event.waitSnapshotAvailable "snap-1" 7200] :=
  ⟨(resourceSnapshotCreate_mutate_wait_read exampleData
      (exampleMeta (some throttlingException) none) []).1 throttlingException rfl,
    (resourceSnapshotCreate_mutate_wait_read exampleData
      (exampleMeta none (some throttlingException)) []).2.1 rfl throttlingException rfl,
    ((resourceSnapshotCreate_mutate_wait_read exampleData
      (exampleMeta none none) []).2.2 rfl rfl).2⟩

/-- C11: `resourceSnapshotDelete` treats an absent snapshot as already deleted.
If `DeleteSnapshot` fails with code `SnapshotNotFoundFault` it returns success
and has made the delete call only; if it fails with any other error it returns
error diagnostics and has made the delete call only; if it succeeds the waiter
is invoked, and the result has an error exactly when `waitSnapshotDeleted`
returns one (and is the nil success otherwise). -/
theorem resourceSnapshotDelete_absent_is_deleted (d : ResourceData) (meta : AWSClient)
    (log : List Event) :
    (errCodeEquals (meta.deleteSnapshot log (awsString d.Id)) ErrCodeSnapshotNotFoundFault
        = true →
      resourceSnapshotDelete d meta log =
        ([], d, log ++ [Event.deleteSnapshot (awsString d.Id)])) ∧
    (∀ e, meta.deleteSnapshot log (awsString d.Id) = some e →
      errCodeEquals (some e) ErrCodeSnapshotNotFoundFault = false →
      ∃ diags, hasError diags = true ∧
        resourceSnapshotDelete d meta log =
          (diags, d, log ++ [Event.deleteSnapshot (awsString d.Id)])) ∧
    (meta.deleteSnapshot log (awsString d.Id) = none →
      (resourceSnapshotDelete d meta log).2.2 =
        log ++ [Event.deleteSnapshot (awsString d.Id)] ++
          [Event.waitSnapshotDeleted d.Id d.timeoutDelete] ∧
      (hasError (resourceSnapshotDelete d meta log).1 = true ↔
        meta.waitSnapshotDeleted (log ++ [Event.deleteSnapshot (awsString d.Id)])
          d.Id d.timeoutDelete ≠ none) ∧
      (meta.waitSnapshotDeleted (log ++ [Event.deleteSnapshot (awsString d.Id)])
          d.Id d.timeoutDelete = none →
        (resourceSnapshotDelete d meta log).1 = [])) := by
  refine ⟨?_, ?_, ?_⟩
  · intro h
    simp only [resourceSnapshotDelete]
    rw [if_pos h]
  · intro e he hcode
    refine ⟨diagErrorf ("error deleting MemoryDB Snapshot (" ++ d.Id ++ "): " ++ e.Error),
      rfl, ?_⟩
    simp only [resourceSnapshotDelete, he, hcode]
    simp
  · intro h
    simp only [resourceSnapshotDelete, h]
    generalize meta.waitSnapshotDeleted (log ++ [Event.deleteSnapshot (awsString d.Id)])
      d.Id d.timeoutDelete = w
    rcases w with _ | e
    · simp [errCodeEquals, hasError]
    · simp [errCodeEquals, hasError, diagErrorf]

/-- Witness for C11: a delete call answered with `SnapshotNotFoundFault`, one
that is throttled, and a successful one followed by a wait that fails. -/
theorem resourceSnapshotDelete_absent_is_deleted_witness :
    resourceSnapshotDelete storedData (deleteMeta (some snapshotNotFoundFault) none) [] =
      ([], storedData, [] ++ [Event.deleteSnapshot (awsString storedData.Id)]) ∧
    (∃ diags, hasError diags = true ∧
      resourceSnapshotDelete storedData (deleteMeta (some throttlingException) none) [] =
        (diags, storedData, [] ++ [Event.deleteSnapshot (awsString storedData.Id)])) ∧
    hasError
      (resourceSnapshotDelete storedData (deleteMeta none (some throttlingException)) []).1 =
      true :=
  ⟨(resourceSnapshotDelete_absent_is_deleted storedData
      (deleteMeta (some snapshotNotFoundFault) none) []).1 (by decide),
    (resourceSnapshotDelete_absent_is_deleted storedData
      (deleteMeta (some throttlingException) none) []).2.1 throttlingException rfl
      (by decide),
    ((resourceSnapshotDelete_absent_is_deleted storedData
      (deleteMeta none (some throttlingException)) []).2.2 rfl).2.1.2
      (by simp [deleteMeta])⟩

/-- C14: `resourceSnapshotRead` removes a vanished resource from state only when
it is not new.  On a NotFound error of the finder for a resource that is not
new, the result is success, the ID is "" and the attributes are as before; on
a NotFound error for a new resource, or on any other error, the result is
error diagnostics and the resource data, ID included, is as before. -/
theorem resourceSnapshotRead_removes_only_old (d : ResourceData) (meta : AWSClient)
    (log : List Event) :
    (d.IsNewResource = false →
      tfresourceNotFound (meta.findSnapshotByName log d.Id).2 = true →
      resourceSnapshotRead d meta log =
        GoResult.returned ([], d.SetId "", log ++ [Event.findSnapshotByName d.Id]) ∧
      (d.SetId "").Id = "" ∧ (d.SetId "").attrs = d.attrs) ∧
    (∀ e, (meta.findSnapshotByName log d.Id).2 = some e →
      (d.IsNewResource = true ∨ tfresourceNotFound (some e) = false) →
      ∃ diags, hasError diags = true ∧
        resourceSnapshotRead d meta log =
          GoResult.returned (diags, d, log ++ [Event.findSnapshotByName d.Id])) := by
  refine ⟨?_, ?_⟩
  · intro hnew hnf
    refine ⟨?_, rfl, rfl⟩
    simp only [resourceSnapshotRead, hnew, hnf]
    simp
  · intro e he hcase
    refine ⟨diagErrorf ("error reading MemoryDB Snapshot (" ++ d.Id ++ "): " ++ e.Error),
      rfl, ?_⟩
    rcases hfind : meta.findSnapshotByName log d.Id with ⟨snapshot, err⟩
    rw [hfind] at he
    simp only at he
    subst he
    simp only [resourceSnapshotRead, hfind]
    rcases hcase with h | h
    · simp [h]
    · simp [h]

/-- Witness for C14: a stored snapshot that has vanished, a new one that is not
found, and a stored one whose lookup is throttled. -/
theorem resourceSnapshotRead_removes_only_old_witness :
    resourceSnapshotRead storedData (findMeta (none, some emptyResultError)) [] =
      GoResult.returned ([], storedData.SetId "",
        [] ++ [Event.findSnapshotByName storedData.Id]) ∧
    (∃ diags, hasError diags = true ∧
      resourceSnapshotRead exampleData (findMeta (none, some emptyResultError)) [] =
        GoResult.returned (diags, exampleData,
          [] ++ [Event.findSnapshotByName exampleData.Id])) ∧
    (∃ diags, hasError diags = true ∧
      resourceSnapshotRead storedData (findMeta (none, some throttlingException)) [] =
        GoResult.returned (diags, storedData,
          [] ++ [Event.findSnapshotByName storedData.Id])) :=
  ⟨((resourceSnapshotRead_removes_only_old storedData
      (findMeta (none, some emptyResultError)) []).1 rfl rfl).1,
    (resourceSnapshotRead_removes_only_old exampleData
      (findMeta (none, some emptyResultError)) []).2 emptyResultError rfl (Or.inl rfl),
    (resourceSnapshotRead_removes_only_old storedData
      (findMeta (none, some throttlingException)) []).2 throttlingException rfl
      (Or.inr rfl)⟩

/-- C16: `flattenClusterConfiguration` returns the empty list for nil, and for
every non-nil configuration a list of exactly one map whose keys are exactly
the 13 keys, each once, each holding the value of its field, a nil string
field as "" and a nil integer field as 0. -/
theorem flattenClusterConfiguration_shape (c : ClusterConfiguration) :
    flattenClusterConfiguration none = [] ∧
    ∃ m : FlatMap, flattenClusterConfiguration (some c) = [m] ∧
      m.map Prod.fst = clusterConfigurationKeys ∧ clusterConfigurationKeys.Nodup ∧
      clusterConfigurationKeys.length = 13 ∧
      m.lookup "description" = some (FlatValue.str (c.Description.getD "")) ∧
      m.lookup "engine_version" = some (FlatValue.str (c.EngineVersion.getD "")) ∧
      m.lookup "maintenance_window" = some (FlatValue.str (c.MaintenanceWindow.getD "")) ∧
      m.lookup "name" = some (FlatValue.str (c.Name.getD "")) ∧
      m.lookup "node_type" = some (FlatValue.str (c.NodeType.getD "")) ∧
      m.lookup "num_shards" = some (FlatValue.int (c.NumShards.getD 0)) ∧
      m.lookup "parameter_group_name" = some (FlatValue.str (c.ParameterGroupName.getD "")) ∧
      m.lookup "port" = some (FlatValue.int (c.Port.getD 0)) ∧
      m.lookup "snapshot_retention_limit" =
        some (FlatValue.int (c.SnapshotRetentionLimit.getD 0)) ∧
      m.lookup "snapshot_window" = some (FlatValue.str (c.SnapshotWindow.getD "")) ∧
      m.lookup "subnet_group_name" = some (FlatValue.str (c.SubnetGroupName.getD "")) ∧
      m.lookup "topic_arn" = some (FlatValue.str (c.TopicArn.getD "")) ∧
      m.lookup "vpc_id" = some (FlatValue.str (c.VpcId.getD "")) := by
  have hs : ∀ p : Option String, awsStringValue p = p.getD "" := by
    intro p; cases p <;> rfl
  have hi : ∀ p : Option Int, awsInt64Value p = p.getD 0 := by
    intro p; cases p <;> rfl
  refine ⟨rfl, _, rfl, rfl, by decide, rfl, ?_⟩
  simp only [hs, hi]
  refine ⟨?_, ?_, ?_, ?_, ?_, ?_, ?_, ?_, ?_, ?_, ?_, ?_, ?_⟩ <;>
    simp [List.lookup]

/-- C17: the code at the failing input.  Whatever the resource data, the client
and the snapshot, when the finder returns the snapshot with a nil
`ClusterConfiguration` and a nil error and the schema accepts the writes,
`resourceSnapshotRead` panics on `snapshot.ClusterConfiguration.Name`, although
`flattenClusterConfiguration` has just mapped the same nil pointer to the empty
list. -/
theorem resourceSnapshotRead_nil_configuration_panics (d : ResourceData) (meta : AWSClient)
    (log : List Event) (s : Snapshot) :
    resourceSnapshotRead { d with schemaError := fun _ _ => none }
        { meta with
          findSnapshotByName := fun _ _ => (some { s with ClusterConfiguration := none }, none) }
        log = GoResult.panicked "nil pointer dereference" ∧
    flattenClusterConfiguration ({ s with ClusterConfiguration := none } :
      Snapshot).ClusterConfiguration = [] := by
  refine ⟨?_, rfl⟩
  simp [resourceSnapshotRead, tfresourceNotFound, ResourceData.Set]

/-! ## Theorems: the destroy check -/

/-- The pair `AcceleratorByARN` returns depends on the client only through the
answer of `DescribeAccelerator` to the one request. -/
theorem AcceleratorByARN_result_of_stable (conn0 conn : GlobalAccelerator) (arn : String)
    (hsame : conn.describeAccelerator = conn0.describeAccelerator)
    (hstable : StableAnswers conn0) :
    (AcceleratorByARN conn arn).1 = (AcceleratorByARN conn0 arn).1 := by
  have h : conn.describeAccelerator conn.calls (Request.describeAcceleratorInput (some arn)) =
      conn0.describeAccelerator conn0.calls (Request.describeAcceleratorInput (some arn)) := by
    rw [hsame]
    exact hstable _ _ _
  simp only [AcceleratorByARN, GlobalAccelerator.DescribeAccelerator, awsString, h]
  split <;> try rfl
  split <;> try rfl
  split <;> try rfl
  split <;> rfl

/-- The client that `AcceleratorByARN` hands back answers like the one it was
given. -/
theorem AcceleratorByARN_keeps_service (conn : GlobalAccelerator) (arn : String) :
    (AcceleratorByARN conn arn).2.describeAccelerator = conn.describeAccelerator := by
  simp only [AcceleratorByARN, GlobalAccelerator.DescribeAccelerator, awsString]
  split <;> try rfl
  split <;> try rfl
  split <;> try rfl
  split <;> rfl

/-- Resources of another type are skipped: the check gives the same result and
makes the same calls on the resources of type
"aws_globalaccelerator_accelerator" alone. -/
theorem destroy_check_ignores_other_types (conn : GlobalAccelerator)
    (resources : List (String × ResourceState)) :
    testAccCheckGlobalAcceleratorAcceleratorDestroy conn resources =
      testAccCheckGlobalAcceleratorAcceleratorDestroy conn
        (resources.filter (fun r => r.2.Type_ == "aws_globalaccelerator_accelerator")) := by
  induction resources generalizing conn with
  | nil => rfl
  | cons r rest ih =>
    obtain ⟨name, rs⟩ := r
    by_cases ht : rs.Type_ = "aws_globalaccelerator_accelerator"
    · have hf : (((name, rs) :: rest).filter
          (fun r => r.2.Type_ == "aws_globalaccelerator_accelerator")) =
          (name, rs) :: rest.filter
            (fun r => r.2.Type_ == "aws_globalaccelerator_accelerator") := by
        simp [List.filter_cons, ht]
      rw [hf]
      simp only [testAccCheckGlobalAcceleratorAcceleratorDestroy, ht]
      rcases rs.Primary with _ | primary
      · simp
      · simp only [bne_self_eq_false, Bool.false_eq_true, if_false]
        split
        · exact ih _
        · rfl
    · have hf : (((name, rs) :: rest).filter
          (fun r => r.2.Type_ == "aws_globalaccelerator_accelerator")) =
          rest.filter (fun r => r.2.Type_ == "aws_globalaccelerator_accelerator") := by
        simp [List.filter_cons, ht]
      rw [hf, ← ih conn]
      simp [testAccCheckGlobalAcceleratorAcceleratorDestroy, ht]

/-- With stable answers and primary instances in place the check returns, and
it returns the nil error exactly when every accelerator lookup is NotFound. -/
theorem destroy_check_returns (conn0 : GlobalAccelerator) (hstable : StableAnswers conn0)
    (resources : List (String × ResourceState)) (conn : GlobalAccelerator)
    (hsame : conn.describeAccelerator = conn0.describeAccelerator)
    (hprimary : AcceleratorsHavePrimary resources) :
    ∃ res, (testAccCheckGlobalAcceleratorAcceleratorDestroy conn resources).1 =
        GoResult.returned res ∧
      (res = none ↔ AllAcceleratorsNotFound conn0 resources) := by
  induction resources generalizing conn with
  | nil =>
    refine ⟨none, rfl, ?_⟩
    simp [AllAcceleratorsNotFound]
  | cons r rest ih =>
    obtain ⟨name, rs⟩ := r
    have hrest : AcceleratorsHavePrimary rest :=
      fun x hx => hprimary x (List.mem_cons_of_mem _ hx)
    by_cases ht : rs.Type_ = "aws_globalaccelerator_accelerator"
    · have hp := hprimary (name, rs) (List.mem_cons_self _ _) ht
      rcases hprim : rs.Primary with _ | primary
      · exact absurd hprim hp
      · have hres := AcceleratorByARN_result_of_stable conn0 conn primary.ID hsame hstable
        have hkeep := AcceleratorByARN_keeps_service conn primary.ID
        simp only [testAccCheckGlobalAcceleratorAcceleratorDestroy, ht, hprim,
          bne_self_eq_false, Bool.false_eq_true, if_false]
        by_cases hnf : tfresourceNotFound (AcceleratorByARN conn0 primary.ID).1.2 = true
        · have hnf1 : tfresourceNotFound (AcceleratorByARN conn primary.ID).1.2 = true := by
            rw [hres]; exact hnf
          rw [if_pos hnf1]
          obtain ⟨res, h1, h2⟩ := ih (AcceleratorByARN conn primary.ID).2
            (hkeep.trans hsame) hrest
          refine ⟨res, h1, h2.trans ?_⟩
          constructor
          · intro hall x hx
            rcases List.mem_cons.1 hx with rfl | hx
            · intro _ p hpeq
              simp only at hpeq
              rw [hprim] at hpeq
              cases hpeq
              exact hnf
            · exact hall x hx
          · intro hall x hx
            exact hall x (List.mem_cons_of_mem _ hx)
        · have hnf1 : ¬ tfresourceNotFound (AcceleratorByARN conn primary.ID).1.2 = true := by
            rw [hres]; exact hnf
          rw [if_neg hnf1]
          have hnot : ¬ AllAcceleratorsNotFound conn0 ((name, rs) :: rest) :=
            fun hall => hnf (hall (name, rs) (List.mem_cons_self _ _) ht primary hprim)
          rcases herr : (AcceleratorByARN conn primary.ID).1.2 with _ | e
          · refine ⟨some (GoError.errorString
              ("Global Accelerator Accelerator " ++ primary.ID ++ " still exists")), ?_, ?_⟩
            · simp
            · simp [hnot]
          · refine ⟨some e, ?_, ?_⟩
            · simp
            · simp [hnot]
    · obtain ⟨res, h1, h2⟩ := ih conn hsame hrest
      refine ⟨res, ?_, h2.trans ?_⟩
      · simp only [testAccCheckGlobalAcceleratorAcceleratorDestroy]
        simpa [ht] using h1
      · constructor
        · intro hall x hx
          rcases List.mem_cons.1 hx with rfl | hx
          · intro htx
            exact absurd htx ht
          · exact hall x hx
        · intro hall x hx
          exact hall x (List.mem_cons_of_mem _ hx)

/-- C12: for a service whose answers are stable during the check and a state
whose accelerator resources have a primary instance, the destroy check returns
nil if and only if `finder.AcceleratorByARN` returns a NotFound error for every
resource of type "aws_globalaccelerator_accelerator"; a resource of that type
that is found or whose lookup fails otherwise makes it return a non-nil error;
resources of other types do not affect the result; and whether the result is
nil is the same for every order in which the resources are visited. -/
theorem destroy_check_nil_iff_all_not_found (conn : GlobalAccelerator)
    (resources : List (String × ResourceState))
    (hstable : StableAnswers conn) (hprimary : AcceleratorsHavePrimary resources) :
    ((testAccCheckGlobalAcceleratorAcceleratorDestroy conn resources).1 =
        GoResult.returned none ↔ AllAcceleratorsNotFound conn resources) ∧
    (∀ r ∈ resources, r.2.Type_ = "aws_globalaccelerator_accelerator" →
      ∀ primary, r.2.Primary = some primary →
        tfresourceNotFound (AcceleratorByARN conn primary.ID).1.2 = false →
        ∃ e, (testAccCheckGlobalAcceleratorAcceleratorDestroy conn resources).1 =
          GoResult.returned (some e)) ∧
    testAccCheckGlobalAcceleratorAcceleratorDestroy conn resources =
      testAccCheckGlobalAcceleratorAcceleratorDestroy conn
        (resources.filter (fun r => r.2.Type_ == "aws_globalaccelerator_accelerator")) ∧
    (∀ visited : List (String × ResourceState), visited.Perm resources →
      ((testAccCheckGlobalAcceleratorAcceleratorDestroy conn visited).1 =
          GoResult.returned none ↔
        (testAccCheckGlobalAcceleratorAcceleratorDestroy conn resources).1 =
          GoResult.returned none) ∧
      ∃ res, (testAccCheckGlobalAcceleratorAcceleratorDestroy conn visited).1 =
        GoResult.returned res) := by
  obtain ⟨res, h1, h2⟩ := destroy_check_returns conn hstable resources conn rfl hprimary
  have hiff : (testAccCheckGlobalAcceleratorAcceleratorDestroy conn resources).1 =
      GoResult.returned none ↔ AllAcceleratorsNotFound conn resources := by
    rw [h1]
    constructor
    · intro h
      exact h2.1 (GoResult.returned.inj h)
    · intro h
      rw [h2.2 h]
  refine ⟨hiff, ?_, destroy_check_ignores_other_types conn resources, ?_⟩
  · intro r hr ht primary hp hnf
    rcases res with _ | e
    · have hall := h2.1 rfl
      rw [hall r hr ht primary hp] at hnf
      exact absurd hnf (by decide)
    · exact ⟨e, h1⟩
  · intro visited hperm
    have hprimary1 : AcceleratorsHavePrimary visited :=
      fun x hx => hprimary x (hperm.mem_iff.1 hx)
    obtain ⟨res1, g1, g2⟩ := destroy_check_returns conn hstable visited conn rfl hprimary1
    have hall : AllAcceleratorsNotFound conn visited ↔ AllAcceleratorsNotFound conn resources :=
      ⟨fun h x hx => h x (hperm.mem_iff.2 hx), fun h x hx => h x (hperm.mem_iff.1 hx)⟩
    refine ⟨?_, res1, g1⟩
    rw [hiff, ← hall, g1]
    constructor
    · intro h
      exact g2.1 (GoResult.returned.inj h)
    · intro h
      rw [g2.2 h]

/-- Witness for C12: after destroy both accelerators are gone and the check
returns nil, the listener left aside; when "arn-1" still exists the check
returns an error. -/
theorem destroy_check_nil_iff_all_not_found_witness :
    (testAccCheckGlobalAcceleratorAcceleratorDestroy mixedClient destroyedState).1 =
      GoResult.returned none ∧
    ∃ e, (testAccCheckGlobalAcceleratorAcceleratorDestroy mixedClient lingeringState).1 =
      GoResult.returned (some e) :=
  ⟨(destroy_check_nil_iff_all_not_found mixedClient destroyedState
      (fun _ _ _ => rfl)
      (by unfold AcceleratorsHavePrimary destroyedState; decide)).1.2
      (by
        intro r hr ht primary hp
        simp only [destroyedState, List.mem_cons, List.mem_singleton, List.not_mem_nil,
          or_false] at hr
        rcases hr with rfl | rfl | rfl
        · cases hp; decide
        · exact absurd ht (by decide)
        · cases hp; decide),
    (destroy_check_nil_iff_all_not_found mixedClient lingeringState
      (fun _ _ _ => rfl)
      (by unfold AcceleratorsHavePrimary lingeringState; decide)).2.1
      ("aws_globalaccelerator_accelerator.b",
        { Type_ := "aws_globalaccelerator_accelerator", Primary := some { ID := "arn-1" } })
      (by simp [lingeringState]) rfl { ID := "arn-1" } rfl (by decide)⟩

/-! ## Theorems: the validators of the snapshot name -/

/-- A regular expression is nullable exactly when it stands for the empty
word. -/
theorem Regex.nullable_iff (r : Regex) : r.nullable = true ↔ r.Matches [] := by
  induction r with
  | noMatch => simp [Regex.nullable, Regex.Matches]
  | emptyMatch => simp [Regex.nullable, Regex.Matches]
  | charClass ranges => simp [Regex.nullable, Regex.Matches]
  | concat a b iha ihb =>
    simp only [Regex.nullable, Regex.Matches, Bool.and_eq_true, iha, ihb]
    constructor
    · rintro ⟨ha, hb⟩
      exact ⟨[], [], rfl, ha, hb⟩
    · rintro ⟨u, v, huv, ha, hb⟩
      have hnil := List.append_eq_nil.1 huv.symm
      rw [hnil.1] at ha
      rw [hnil.2] at hb
      exact ⟨ha, hb⟩
  | alternate a b iha ihb =>
    simp only [Regex.nullable, Regex.Matches, Bool.or_eq_true, iha, ihb]
  | star a _ =>
    simp only [Regex.nullable, Regex.Matches, true_iff]
    exact ⟨[], rfl, fun p hp => absurd hp (List.not_mem_nil p)⟩

/-- Reading a character: what is left of `r` after `c` stands for exactly the
words `text` for which `r` stands for `c :: text`. -/
theorem Regex.deriv_iff (r : Regex) (c : Char) (text : List Char) :
    (r.deriv c).Matches text ↔ r.Matches (c :: text) := by
  induction r generalizing text with
  | noMatch => simp [Regex.deriv, Regex.Matches]
  | emptyMatch => simp [Regex.deriv, Regex.Matches]
  | charClass ranges =>
    simp only [Regex.deriv, Regex.Matches]
    by_cases h : inRanges ranges c = true
    · rw [if_pos h]
      simp only [Regex.Matches]
      constructor
      · intro ht
        exact ⟨c, by rw [ht], h⟩
      · rintro ⟨x, hx, _⟩
        exact (List.cons.inj hx).2
    · rw [if_neg h]
      simp only [Regex.Matches, false_iff]
      rintro ⟨x, hx, hin⟩
      rw [(List.cons.inj hx).1] at h
      exact h hin
  | concat a b iha ihb =>
    have key : (∃ u v, text = u ++ v ∧ a.Matches (c :: u) ∧ b.Matches v) ∨
        (a.Matches [] ∧ b.Matches (c :: text)) ↔
        ∃ u v, c :: text = u ++ v ∧ a.Matches u ∧ b.Matches v := by
      constructor
      · rintro (⟨u, v, huv, ha, hb⟩ | ⟨ha, hb⟩)
        · exact ⟨c :: u, v, by rw [huv]; rfl, ha, hb⟩
        · exact ⟨[], c :: text, rfl, ha, hb⟩
      · rintro ⟨u, v, huv, ha, hb⟩
        cases u with
        | nil =>
          right
          rw [List.nil_append] at huv
          rw [← huv] at hb
          exact ⟨ha, hb⟩
        | cons x u1 =>
          left
          rw [List.cons_append] at huv
          obtain ⟨hx, ht⟩ := List.cons.inj huv
          rw [← hx] at ha
          exact ⟨u1, v, ht, ha, hb⟩
    simp only [Regex.deriv]
    by_cases hn : a.nullable = true
    · rw [if_pos hn]
      simp only [Regex.Matches, iha, ihb]
      rw [← key]
      constructor
      · rintro (h | h)
        · exact Or.inl h
        · exact Or.inr ⟨(Regex.nullable_iff a).1 hn, h⟩
      · rintro (h | ⟨_, h⟩)
        · exact Or.inl h
        · exact Or.inr h
    · rw [if_neg hn]
      simp only [Regex.Matches, iha]
      rw [← key]
      constructor
      · intro h
        exact Or.inl h
      · rintro (h | ⟨h, _⟩)
        · exact h
        · exact absurd ((Regex.nullable_iff a).2 h) hn
  | alternate a b iha ihb =>
    simp only [Regex.deriv, Regex.Matches, iha, ihb]
  | star a iha =>
    simp only [Regex.deriv, Regex.Matches, iha]
    constructor
    · rintro ⟨u, v, huv, ha, parts, hv, hparts⟩
      refine ⟨(c :: u) :: parts, ?_, ?_⟩
      · rw [List.flatten_cons, ← hv, huv]
        rfl
      · intro p hp
        rcases List.mem_cons.1 hp with rfl | hp
        · exact ⟨List.cons_ne_nil c u, ha⟩
        · exact hparts p hp
    · rintro ⟨parts, hflat, hparts⟩
      cases parts with
      | nil => exact absurd hflat (by simp)
      | cons p rest =>
        obtain ⟨hne, hp⟩ := hparts p (List.mem_cons_self p rest)
        cases p with
        | nil => exact absurd rfl hne
        | cons x u =>
          rw [List.flatten_cons, List.cons_append] at hflat
          obtain ⟨hx, ht⟩ := List.cons.inj hflat
          rw [← hx] at hp
          exact ⟨u, rest.flatten, ht, hp, rest, rfl,
            fun q hq => hparts q (List.mem_cons_of_mem _ hq)⟩

/-- The matcher is correct: it accepts a text exactly when the regular
expression stands for it. -/
theorem Regex.fullMatch_iff (r : Regex) (text : List Char) :
    r.fullMatch text = true ↔ r.Matches text := by
  induction text generalizing r with
  | nil => exact Regex.nullable_iff r
  | cons c rest ih =>
    simp only [Regex.fullMatch]
    rw [ih (r.deriv c)]
    exact Regex.deriv_iff r c rest

/-- Class `[-]` holds the hyphen only. -/
theorem inRanges_hyphen (c : Char) : inRanges [('-', '-')] c = true ↔ c = '-' := by
  simp only [inRanges, List.any_cons, List.any_nil, Bool.or_false, Bool.and_eq_true,
    decide_eq_true_eq]
  constructor
  · rintro ⟨h1, h2⟩
    exact le_antisymm h2 h1
  · rintro rfl
    exact ⟨le_refl _, le_refl _⟩

/-- Class `[a-z0-9]` holds the lowercase ASCII letters and the digits. -/
theorem inRanges_lowerAlnum (c : Char) :
    inRanges lowerAlnum c = true ↔ (c.isLower = true ∨ c.isDigit = true) := by
  simp only [inRanges, lowerAlnum, List.any_cons, List.any_nil, Bool.or_false,
    Bool.or_eq_true, Bool.and_eq_true, decide_eq_true_eq, Char.isLower, Char.isDigit]
  rfl

/-- Class `[a-z0-9-]` holds the lowercase ASCII letters, the digits and the
hyphen. -/
theorem inRanges_lowerAlnumHyphen (c : Char) :
    inRanges lowerAlnumHyphen c = true ↔
      (c.isLower = true ∨ c.isDigit = true ∨ c = '-') := by
  have h : inRanges lowerAlnumHyphen c =
      (inRanges lowerAlnum c || inRanges [('-', '-')] c) := by
    simp [inRanges, lowerAlnumHyphen, lowerAlnum, Bool.or_assoc]
  rw [h, Bool.or_eq_true, inRanges_lowerAlnum, inRanges_hyphen, or_assoc]

/-- A repeated character class stands for the texts all of whose characters are
in the class. -/
theorem Regex.star_charClass_iff (ranges : List (Char × Char)) (text : List Char) :
    (Regex.star (Regex.charClass ranges)).Matches text ↔
      ∀ x ∈ text, inRanges ranges x = true := by
  simp only [Regex.Matches]
  constructor
  · rintro ⟨parts, hflat, hparts⟩ x hx
    rw [hflat, List.mem_flatten] at hx
    obtain ⟨p, hp, hxp⟩ := hx
    obtain ⟨_, c, hc, hin⟩ := hparts p hp
    rw [hc, List.mem_singleton] at hxp
    rw [hxp]
    exact hin
  · intro hall
    refine ⟨text.map (fun x => [x]), ?_, ?_⟩
    · clear hall
      induction text with
      | nil => rfl
      | cons x rest ih => simp [List.flatten_cons, ← ih]
    · intro p hp
      obtain ⟨x, hx, rfl⟩ := List.mem_map.1 hp
      exact ⟨List.cons_ne_nil x [], x, rfl, hall x hx⟩

/-- Pattern `[-][-]` is found in a string exactly when two consecutive hyphens
occur in it. -/
theorem consecutiveHyphens_matchString (s : String) :
    consecutiveHyphensRegexp.MatchString s = true ↔ ['-', '-'] <:+: s.toList := by
  have hbody : ∀ m : List Char,
      consecutiveHyphensRegexp.body.fullMatch m = true ↔ m = ['-', '-'] := by
    intro m
    rw [Regex.fullMatch_iff]
    simp only [consecutiveHyphensRegexp, Regex.Matches, inRanges_hyphen]
    constructor
    · rintro ⟨u, v, hm, ⟨a, ha, ha1⟩, ⟨b, hb, hb1⟩⟩
      rw [hm, ha, hb, ha1, hb1]
      rfl
    · intro hm
      exact ⟨['-'], ['-'], hm, ⟨'-', rfl, rfl⟩, ⟨'-', rfl, rfl⟩⟩
  simp only [Regexp.MatchString, List.any_eq_true]
  have hflags : consecutiveHyphensRegexp.beginText = false ∧
      consecutiveHyphensRegexp.endText = false := ⟨rfl, rfl⟩
  rw [hflags.1, hflags.2]
  simp only [Bool.false_eq_true, if_false, List.mem_tails, List.mem_inits]
  constructor
  · rintro ⟨rest, hrest, m, hm, hfull⟩
    rw [(hbody m).1 hfull] at hm
    exact List.infix_iff_prefix_suffix.2 ⟨rest, hm, hrest⟩
  · intro h
    obtain ⟨rest, hpre, hsuf⟩ := List.infix_iff_prefix_suffix.1 h
    exact ⟨rest, hsuf, ['-', '-'], hpre, (hbody _).2 rfl⟩

/-- Pattern `^[a-z0-9-]*[a-z0-9]$` matches a string exactly when the string is
some characters of `[a-z0-9-]` followed by one last character of `[a-z0-9]`. -/
theorem nameRegexp_matchString (s : String) :
    nameRegexp.MatchString s = true ↔
      ∃ u c, s.toList = u ++ [c] ∧ (∀ x ∈ u, inRanges lowerAlnumHyphen x = true) ∧
        inRanges lowerAlnum c = true := by
  have hflags : nameRegexp.beginText = true ∧ nameRegexp.endText = true := ⟨rfl, rfl⟩
  simp only [Regexp.MatchString, hflags.1, hflags.2, if_true, List.any_cons, List.any_nil,
    Bool.or_false, Regex.fullMatch_iff]
  have hbody : nameRegexp.body =
      Regex.concat (Regex.star (Regex.charClass lowerAlnumHyphen))
        (Regex.charClass lowerAlnum) := rfl
  rw [hbody]
  constructor
  · rintro ⟨u, v, huv, hu, c, hv, hc⟩
    exact ⟨u, c, by rw [huv, hv], (Regex.star_charClass_iff _ u).1 hu, hc⟩
  · rintro ⟨u, c, huc, hu, hc⟩
    exact ⟨u, [c], huc, (Regex.star_charClass_iff _ u).2 hu, c, rfl, hc⟩

/-- Pattern `^[a-z0-9-]+$` matches a string exactly when the string is not
empty and all its characters are of `[a-z0-9-]`. -/
theorem namePrefixRegexp_matchString (s : String) :
    namePrefixRegexp.MatchString s = true ↔
      s.toList ≠ [] ∧ ∀ x ∈ s.toList, inRanges lowerAlnumHyphen x = true := by
  have hflags : namePrefixRegexp.beginText = true ∧ namePrefixRegexp.endText = true :=
    ⟨rfl, rfl⟩
  simp only [Regexp.MatchString, hflags.1, hflags.2, if_true, List.any_cons, List.any_nil,
    Bool.or_false, Regex.fullMatch_iff]
  have hbody : namePrefixRegexp.body =
      Regex.concat (Regex.charClass lowerAlnumHyphen)
        (Regex.star (Regex.charClass lowerAlnumHyphen)) := rfl
  rw [hbody]
  constructor
  · rintro ⟨u, v, huv, ⟨c, hu, hc⟩, hv⟩
    have hv1 := (Regex.star_charClass_iff _ v).1 hv
    rw [huv, hu]
    refine ⟨List.cons_ne_nil c _, ?_⟩
    intro x hx
    rcases List.mem_cons.1 hx with rfl | hx
    · exact hc
    · exact hv1 x hx
  · rintro ⟨hne, hall⟩
    cases htext : s.toList with
    | nil => exact absurd htext hne
    | cons c rest =>
      rw [htext] at hall
      exact ⟨[c], rest, rfl, ⟨c, rfl, hall c (List.mem_cons_self c rest)⟩,
        (Regex.star_charClass_iff _ rest).2
          (fun x hx => hall x (List.mem_cons_of_mem c hx))⟩

/-- The three checks behind the "name" validator: it reports no error exactly
when the byte length is within 1 to 255, `[-][-]` is not found and
`^[a-z0-9-]*[a-z0-9]$` matches. -/
theorem nameValidateFunc_no_error_iff (v k : String) :
    (nameValidateFunc v k).2 = [] ↔
      (1 ≤ v.utf8ByteSize ∧ v.utf8ByteSize ≤ 255) ∧
        consecutiveHyphensRegexp.MatchString v = false ∧
        nameRegexp.MatchString v = true := by
  simp only [nameValidateFunc, validationAll, validationStringLenBetween,
    validationStringDoesNotMatch, validationStringMatch, List.foldl_cons, List.foldl_nil]
  have hlen : (decide (v.utf8ByteSize < 1) || decide (v.utf8ByteSize > 255)) = true ↔
      ¬ (1 ≤ v.utf8ByteSize ∧ v.utf8ByteSize ≤ 255) := by
    simp only [Bool.or_eq_true, decide_eq_true_eq]
    omega
  by_cases h1 : 1 ≤ v.utf8ByteSize ∧ v.utf8ByteSize ≤ 255
  · have hl : ¬ ((decide (v.utf8ByteSize < 1) || decide (v.utf8ByteSize > 255)) = true) :=
      fun h => hlen.1 h h1
    rw [if_neg hl]
    by_cases h2 : consecutiveHyphensRegexp.MatchString v = true <;>
      by_cases h3 : nameRegexp.MatchString v = true <;>
      simp [h1, h2, h3]
  · have hl := hlen.2 h1
    rw [if_pos hl]
    by_cases h2 : consecutiveHyphensRegexp.MatchString v = true <;>
      by_cases h3 : nameRegexp.MatchString v = true <;>
      simp [h1, h2, h3]

/-- The three checks behind the "name_prefix" validator. -/
theorem namePrefixValidateFunc_no_error_iff (v k : String) :
    (namePrefixValidateFunc v k).2 = [] ↔
      (1 ≤ v.utf8ByteSize ∧ v.utf8ByteSize ≤ 255 - UniqueIDSuffixLength) ∧
        consecutiveHyphensRegexp.MatchString v = false ∧
        namePrefixRegexp.MatchString v = true := by
  simp only [namePrefixValidateFunc, validationAll, validationStringLenBetween,
    validationStringDoesNotMatch, validationStringMatch, List.foldl_cons, List.foldl_nil]
  have hlen : (decide (v.utf8ByteSize < 1) ||
      decide (v.utf8ByteSize > 255 - UniqueIDSuffixLength)) = true ↔
      ¬ (1 ≤ v.utf8ByteSize ∧ v.utf8ByteSize ≤ 255 - UniqueIDSuffixLength) := by
    simp only [Bool.or_eq_true, decide_eq_true_eq]
    omega
  by_cases h1 : 1 ≤ v.utf8ByteSize ∧ v.utf8ByteSize ≤ 255 - UniqueIDSuffixLength
  · have hl : ¬ ((decide (v.utf8ByteSize < 1) ||
        decide (v.utf8ByteSize > 255 - UniqueIDSuffixLength)) = true) :=
      fun h => hlen.1 h h1
    rw [if_neg hl]
    by_cases h2 : consecutiveHyphensRegexp.MatchString v = true <;>
      by_cases h3 : namePrefixRegexp.MatchString v = true <;>
      simp [h1, h2, h3]
  · have hl := hlen.2 h1
    rw [if_pos hl]
    by_cases h2 : consecutiveHyphensRegexp.MatchString v = true <;>
      by_cases h3 : namePrefixRegexp.MatchString v = true <;>
      simp [h1, h2, h3]

/-- A string without characters has byte length 0. -/
theorem utf8ByteSize_eq_zero_of_toList (s : String) (h : s.toList = []) :
    s.utf8ByteSize = 0 := by
  cases s with
  | mk cs =>
    simp only [String.toList] at h
    subst h
    rfl

/-- C13: the validator of the "name" attribute reports no error if and only if
the byte length is between 1 and 255, every character is a lowercase ASCII
letter, a digit or a hyphen, the last character is not a hyphen and no two
consecutive hyphens occur; "-a" is accepted, and "Ab", "a-" and "a--b" are
rejected. -/
theorem nameValidateFunc_accepts_iff (s : String) :
    ((nameValidateFunc s "name").2 = [] ↔
      (1 ≤ s.utf8ByteSize ∧ s.utf8ByteSize ≤ 255) ∧
        (∀ c ∈ s.toList, c.isLower = true ∨ c.isDigit = true ∨ c = '-') ∧
        s.toList.getLast? ≠ some '-' ∧
        ¬ ['-', '-'] <:+: s.toList) ∧
    (nameValidateFunc "-a" "name").2 = [] ∧
    (nameValidateFunc "Ab" "name").2 ≠ [] ∧
    (nameValidateFunc "a-" "name").2 ≠ [] ∧
    (nameValidateFunc "a--b" "name").2 ≠ [] := by
  refine ⟨?_, ?_, ?_, ?_, ?_⟩
  · rw [nameValidateFunc_no_error_iff, nameRegexp_matchString, ← Bool.not_eq_true,
      consecutiveHyphens_matchString]
    constructor
    · rintro ⟨hlen, hhyp, u, c, huc, hu, hc⟩
      refine ⟨hlen, ?_, ?_, hhyp⟩
      · intro x hx
        rw [huc, List.mem_append, List.mem_singleton] at hx
        rcases hx with hx | rfl
        · exact (inRanges_lowerAlnumHyphen x).1 (hu x hx)
        · rcases (inRanges_lowerAlnum x).1 hc with h | h
          · exact Or.inl h
          · exact Or.inr (Or.inl h)
      · have hl : (u ++ [c]).getLast? = some c := by simp
        rw [huc, hl]
        intro heq
        rw [Option.some.inj heq] at hc
        exact absurd ((inRanges_lowerAlnum '-').1 hc) (by decide)
    · rintro ⟨hlen, hall, hlast, hhyp⟩
      refine ⟨hlen, hhyp, ?_⟩
      have hne : s.toList ≠ [] := by
        intro hnil
        have := utf8ByteSize_eq_zero_of_toList s hnil
        omega
      refine ⟨s.toList.dropLast, s.toList.getLast hne, ?_, ?_, ?_⟩
      · exact (List.dropLast_append_getLast hne).symm
      · intro x hx
        exact (inRanges_lowerAlnumHyphen x).2 (hall x (List.mem_of_mem_dropLast hx))
      · have hmem := hall _ (List.getLast_mem hne)
        rw [List.getLast?_eq_getLast _ hne] at hlast
        rcases hmem with h | h | h
        · exact (inRanges_lowerAlnum _).2 (Or.inl h)
        · exact (inRanges_lowerAlnum _).2 (Or.inr h)
        · rw [h] at hlast
          exact absurd rfl hlast
  · rw [nameValidateFunc_no_error_iff]
    decide
  · rw [ne_eq, nameValidateFunc_no_error_iff]
    decide
  · rw [ne_eq, nameValidateFunc_no_error_iff]
    decide
  · rw [ne_eq, nameValidateFunc_no_error_iff]
    decide

/-- A suffix character is a lowercase ASCII letter or a digit. -/
theorem IsSuffixChar.lower_or_digit {c : Char} (h : IsSuffixChar c) :
    c.isLower = true ∨ c.isDigit = true := by
  rcases h with h | ⟨h1, h2⟩
  · exact Or.inr h
  · left
    simp only [Char.isLower, Bool.and_eq_true, decide_eq_true_eq, ge_iff_le]
    have h1v : 'a'.val ≤ c.val := h1
    have h2v : c.val ≤ 'f'.val := h2
    exact ⟨h1v, UInt32.le_trans h2v (by decide)⟩

/-- A lowercase ASCII letter or digit is not the hyphen. -/
theorem ne_hyphen_of_lower_or_digit {c : Char}
    (h : c.isLower = true ∨ c.isDigit = true) : c ≠ '-' := by
  rintro rfl
  revert h
  decide

/-- A lowercase ASCII letter or digit takes one byte. -/
theorem utf8Size_of_lower_or_digit {c : Char}
    (h : c.isLower = true ∨ c.isDigit = true) : c.utf8Size = 1 := by
  simp only [Char.isLower, Char.isDigit, Bool.and_eq_true, decide_eq_true_eq,
    ge_iff_le] at h
  have hle : c.val ≤ 127 := by
    rcases h with ⟨_, h⟩ | ⟨_, h⟩
    · exact UInt32.le_trans h (by decide)
    · exact UInt32.le_trans h (by decide)
  simp [Char.utf8Size, hle]

/-- A text of one-byte characters has as many bytes as characters. -/
theorem utf8Len_of_one_byte (text : List Char) (h : ∀ c ∈ text, c.utf8Size = 1) :
    String.utf8Len text = text.length := by
  induction text with
  | nil => rfl
  | cons c rest ih =>
    rw [String.utf8Len_cons, List.length_cons, h c (List.mem_cons_self c rest),
      ih (fun x hx => h x (List.mem_cons_of_mem c hx))]

/-- The byte length of a concatenation is the sum of the byte lengths. -/
theorem utf8ByteSize_append (p s : String) :
    (p ++ s).utf8ByteSize = p.utf8ByteSize + s.utf8ByteSize := by
  cases p with
  | mk a =>
    cases s with
    | mk b =>
      show (String.mk (a ++ b)).utf8ByteSize = _
      simp [String.utf8ByteSize_mk, String.utf8Len_append]

/-- Appending a text without hyphens to a text without two consecutive hyphens
gives a text without two consecutive hyphens, also when the first text ends
with a hyphen. -/
theorem no_consecutive_hyphens_append (u v : List Char)
    (hu : ¬ ['-', '-'] <:+: u) (hv : ∀ c ∈ v, c ≠ '-') :
    ¬ ['-', '-'] <:+: u ++ v := by
  rintro ⟨a, b, hab⟩
  have hab1 : a ++ '-' :: '-' :: b = u ++ v := by
    rw [← hab]
    simp
  rcases List.append_eq_append_iff.1 hab1 with ⟨m, hum, hm⟩ | ⟨m, _, hvm⟩
  · cases m with
    | nil =>
      have hm0 : '-' :: '-' :: b = v := hm
      exact hv '-' (by rw [← hm0]; exact List.mem_cons_self _ _) rfl
    | cons x m1 =>
      have hm0 : '-' :: '-' :: b = x :: (m1 ++ v) := hm
      obtain ⟨hx, hm1⟩ := List.cons.inj hm0
      cases m1 with
      | nil =>
        have hm2 : '-' :: b = v := hm1
        exact hv '-' (by rw [← hm2]; exact List.mem_cons_self _ _) rfl
      | cons y m2 =>
        have hm2 : '-' :: b = y :: (m2 ++ v) := hm1
        obtain ⟨hy, _⟩ := List.cons.inj hm2
        apply hu
        refine ⟨a, m2, ?_⟩
        rw [hum, ← hx, ← hy]
        simp
  · exact hv '-' (by rw [hvm]; simp) rfl

/-- C15: every generated name is a valid name.  For every string `p` that the
"name_prefix" validator accepts and every suffix `s` of
`UniqueIDSuffixLength` = 26 characters, each a digit or a lowercase
hexadecimal letter, the "name" validator accepts `p ++ s`. -/
theorem generated_name_is_valid (p s : String)
    (hp : (namePrefixValidateFunc p "name_prefix").2 = [])
    (hlen : s.length = UniqueIDSuffixLength)
    (hs : ∀ c ∈ s.toList, IsSuffixChar c) :
    (nameValidateFunc (p ++ s) "name").2 = [] := by
  rw [namePrefixValidateFunc_no_error_iff, namePrefixRegexp_matchString,
    ← Bool.not_eq_true, consecutiveHyphens_matchString] at hp
  obtain ⟨⟨hp1, hp2⟩, hphyp, _, hpall⟩ := hp
  rw [nameValidateFunc_no_error_iff, nameRegexp_matchString, ← Bool.not_eq_true,
    consecutiveHyphens_matchString]
  have hlist : (p ++ s).toList = p.toList ++ s.toList := by simp [String.toList]
  have hslen : s.toList.length = 26 := hlen
  have hsbytes : s.utf8ByteSize = 26 := by
    have h1 : s.utf8ByteSize = String.utf8Len s.toList := by
      cases s
      rfl
    rw [h1, utf8Len_of_one_byte _
      (fun c hc => utf8Size_of_lower_or_digit (hs c hc).lower_or_digit), hslen]
  have hsne : s.toList ≠ [] := by
    intro hnil
    rw [hnil] at hslen
    exact absurd hslen (by decide)
  refine ⟨?_, ?_, ?_⟩
  · rw [utf8ByteSize_append, hsbytes]
    simp only [UniqueIDSuffixLength] at hp2
    omega
  · rw [hlist]
    exact no_consecutive_hyphens_append _ _ hphyp
      (fun c hc => ne_hyphen_of_lower_or_digit (hs c hc).lower_or_digit)
  · refine ⟨p.toList ++ s.toList.dropLast, s.toList.getLast hsne, ?_, ?_, ?_⟩
    · rw [hlist, List.append_assoc, List.dropLast_append_getLast hsne]
    · intro x hx
      rcases List.mem_append.1 hx with hx | hx
      · exact hpall x hx
      · rcases (hs x (List.mem_of_mem_dropLast hx)).lower_or_digit with h | h
        · exact (inRanges_lowerAlnumHyphen x).2 (Or.inl h)
        · exact (inRanges_lowerAlnumHyphen x).2 (Or.inr (Or.inl h))
    · exact (inRanges_lowerAlnum _).2 (hs _ (List.getLast_mem hsne)).lower_or_digit

/-- Witness for C15: the prefix "snap-", which ends with a hyphen, and the
suffix "20211104120000000000000001". -/
theorem generated_name_is_valid_witness :
    (nameValidateFunc ("snap-" ++ "20211104120000000000000001") "name").2 = [] :=
  generated_name_is_valid "snap-" "20211104120000000000000001"
    (by rw [namePrefixValidateFunc_no_error_iff]; decide)
    (by decide)
    (by unfold IsSuffixChar; decide)

end TerraformAws
